import Mathlib

/-
  Shallow embedding of the physics-and-animation core of the
  Neural-Animation repository (src/index.ts and src/unnamed/part_001).

  Real-number quantities of the JavaScript source are modelled as exact
  rationals (ℚ); the easing functions are additionally stated over an
  arbitrary linear ordered field so that the elastic easing can be
  instantiated at ℝ with the genuine Real.sin.  External math-library
  calls (Math.sin, Math.pow with non-integer exponent, Math.PI,
  Math.random) are passed in as explicit function/value parameters.
-/

namespace Neural

/-! ## Easing functions and interpolation
    (src/unnamed/part_001, getEasingFunction lines 1367-1402,
     lerp line 1403, lerpColor lines 1406-1411) -/

/-- lerp (part_001 line 1403): start + (end - start) * t. -/
def lerp {K : Type} [Field K] (s e t : K) : K :=
  s + (e - s) * t

/-- getEasingFunction (part_001 lines 1367-1402).  The switch on the easing
name returns one of six curves; unknown names fall through to linear.
`sin2` stands for Math.sin, `pow2` for `x => Math.pow(2, x)`, `piK` for
Math.PI; integer-exponent Math.pow calls are cubes.  In the elastic case
the source sets `c4 = 2π/3` and returns
`t === 0 ? 0 : t === 1 ? 1 : -(2^(10t-10)) * sin((10t - 10.75) * c4)`. -/
def getEasingFunction {K : Type} [LinearOrderedField K]
    (sin2 pow2 : K → K) (piK : K) (type : String) : K → K :=
  if type = "linear" then fun t => t
  else if type = "ease-in" then fun t => t * t * t
  else if type = "ease-out" then fun t => 1 - (1 - t) ^ 3
  else if type = "ease-in-out" then
    fun t => if t < 0.5 then 4 * t * t * t else 1 - (-2 * t + 2) ^ 3 / 2
  else if type = "bounce" then
    fun t =>
      let n1 : K := 7.5625
      let d1 : K := 2.75
      if t < 1 / d1 then n1 * t * t
      else if t < 2 / d1 then n1 * (t - 1.5 / d1) * (t - 1.5 / d1) + 0.75
      else if t < 2.5 / d1 then n1 * (t - 2.25 / d1) * (t - 2.25 / d1) + 0.9375
      else n1 * (t - 2.625 / d1) * (t - 2.625 / d1) + 0.984375
  else if type = "elastic" then
    fun t =>
      let c4 : K := 2 * piK / 3
      if t = 0 then 0
      else if t = 1 then 1
      else -(pow2 (10 * t - 10)) * sin2 ((t * 10 - 10.75) * c4)
  else fun t => t

/-- An RGB colour; the source stores colours as hex strings and blends
them channel-wise through THREE.Color.lerp (part_001 lines 1406-1411). -/
structure ColorRGB where
  r : ℚ
  g : ℚ
  b : ℚ
deriving DecidableEq, Repr

/-- lerpColor (part_001 lines 1406-1411): channel-wise linear blend. -/
def lerpColor (c1 c2 : ColorRGB) (t : ℚ) : ColorRGB :=
  ⟨lerp c1.r c2.r t, lerp c1.g c2.g t, lerp c1.b c2.b t⟩

/-! ## Presets and the transition engine
    (src/unnamed/part_001: getCurrentPreset lines 836-863,
     startTransition lines 1412-1420, updateTransition lines 1421-1482) -/

/-- A preset: the flat record of every tunable parameter
(part_001 lines 838-862). -/
structure Preset where
  name : String
  nodeCount : ℚ
  nodeSpeed : ℚ
  activitySpeed : ℚ
  connectionOpacity : ℚ
  spaceSize : ℚ
  mouseInfluenceRadius : ℚ
  backgroundColor : ColorRGB
  nodeColor : ColorRGB
  connectionColor : ColorRGB
  showAllConnections : Bool
  particleCount : ℚ
  particleSpeed : ℚ
  particleSize : ℚ
  particleColor : ColorRGB
  showParticles : Bool
  rippleIntensity : ℚ
  rippleDuration : ℚ
  rippleSize : ℚ
  rippleColor : ColorRGB
  showRipples : Bool
  wallRestitution : ℚ
  wallFriction : ℚ
deriving DecidableEq, Repr

/-- The controller fields touched by the transition engine.  nodeCount and
particleCount are stored as integers: they are set from integer preset
fields by applyPreset and re-rounded (Math.round) on every transition
frame (part_001 lines 1429 and 1435). -/
structure EngineState where
  currentPresetName : String
  nodeCount : ℤ
  nodeSpeed : ℚ
  activitySpeed : ℚ
  connectionOpacity : ℚ
  spaceSize : ℚ
  mouseInfluenceRadius : ℚ
  particleCount : ℤ
  particleSpeed : ℚ
  particleSize : ℚ
  rippleIntensity : ℚ
  rippleDuration : ℚ
  rippleSize : ℚ
  wallRestitution : ℚ
  wallFriction : ℚ
  backgroundColor : ColorRGB
  nodeColor : ColorRGB
  connectionColor : ColorRGB
  particleColor : ColorRGB
  rippleColor : ColorRGB
  showAllConnections : Bool
  showParticles : Bool
  showRipples : Bool
  isTransitioning : Bool
  fromPreset : Option Preset
  toPreset : Option Preset
  transitionStartTime : ℚ
  transitionDuration : ℚ
  transitionEasing : String
deriving DecidableEq, Repr

/-- getCurrentPreset (part_001 lines 836-863): snapshot the live
parameters as a preset. -/
def getCurrentPreset (s : EngineState) : Preset where
  name := s.currentPresetName
  nodeCount := s.nodeCount
  nodeSpeed := s.nodeSpeed
  activitySpeed := s.activitySpeed
  connectionOpacity := s.connectionOpacity
  spaceSize := s.spaceSize
  mouseInfluenceRadius := s.mouseInfluenceRadius
  backgroundColor := s.backgroundColor
  nodeColor := s.nodeColor
  connectionColor := s.connectionColor
  showAllConnections := s.showAllConnections
  particleCount := s.particleCount
  particleSpeed := s.particleSpeed
  particleSize := s.particleSize
  particleColor := s.particleColor
  showParticles := s.showParticles
  rippleIntensity := s.rippleIntensity
  rippleDuration := s.rippleDuration
  rippleSize := s.rippleSize
  rippleColor := s.rippleColor
  showRipples := s.showRipples
  wallRestitution := s.wallRestitution
  wallFriction := s.wallFriction

/-- startTransition (part_001 lines 1412-1420): ignored while a transition
is already in flight; otherwise capture the live parameters as `from`,
store the target as `to` and record the wall-clock start time (ms). -/
def startTransition (now : ℚ) (toPreset : Preset) (s : EngineState) : EngineState :=
  if s.isTransitioning then s
  else { s with
    fromPreset := some (getCurrentPreset s)
    toPreset := some toPreset
    isTransitioning := true
    transitionStartTime := now }

/-- updateTransition (part_001 lines 1421-1482).  `now` is wall-clock
milliseconds; progress is min(elapsed/duration, 1); the eased value t
drives an unclamped lerp of every numeric parameter (node and particle
counts re-rounded), a channel-wise colour blend, and a boolean snap at
t ≥ 0.5; when progress reaches 1 the engine stores the target name,
clears both stored presets and leaves the transitioning state. -/
def updateTransition (sin2 pow2 : ℚ → ℚ) (piQ : ℚ) (now : ℚ)
    (s : EngineState) : EngineState :=
  if s.isTransitioning = false then s
  else match s.fromPreset, s.toPreset with
  | none, _ => s
  | _, none => s
  | some f, some tp =>
    let elapsed := (now - s.transitionStartTime) / 1000
    let progress := min (elapsed / s.transitionDuration) 1
    let t := getEasingFunction sin2 pow2 piQ s.transitionEasing progress
    let s1 : EngineState := { s with
      nodeCount := round (lerp f.nodeCount tp.nodeCount t)
      nodeSpeed := lerp f.nodeSpeed tp.nodeSpeed t
      activitySpeed := lerp f.activitySpeed tp.activitySpeed t
      connectionOpacity := lerp f.connectionOpacity tp.connectionOpacity t
      spaceSize := lerp f.spaceSize tp.spaceSize t
      mouseInfluenceRadius := lerp f.mouseInfluenceRadius tp.mouseInfluenceRadius t
      particleCount := round (lerp f.particleCount tp.particleCount t)
      particleSpeed := lerp f.particleSpeed tp.particleSpeed t
      particleSize := lerp f.particleSize tp.particleSize t
      rippleIntensity := lerp f.rippleIntensity tp.rippleIntensity t
      rippleDuration := lerp f.rippleDuration tp.rippleDuration t
      rippleSize := lerp f.rippleSize tp.rippleSize t
      wallRestitution := lerp f.wallRestitution tp.wallRestitution t
      wallFriction := lerp f.wallFriction tp.wallFriction t
      backgroundColor := lerpColor f.backgroundColor tp.backgroundColor t
      nodeColor := lerpColor f.nodeColor tp.nodeColor t
      connectionColor := lerpColor f.connectionColor tp.connectionColor t
      particleColor := lerpColor f.particleColor tp.particleColor t
      rippleColor := lerpColor f.rippleColor tp.rippleColor t
      showAllConnections :=
        if t ≥ 0.5 then tp.showAllConnections else f.showAllConnections
      showParticles := if t ≥ 0.5 then tp.showParticles else f.showParticles
      showRipples := if t ≥ 0.5 then tp.showRipples else f.showRipples }
    if progress ≥ 1 then
      { s1 with
        isTransitioning := false
        currentPresetName := tp.name
        fromPreset := none
        toPreset := none }
    else s1

/-! ## Node motion and wall collisions
    (src/index.ts updateNodes lines 1616-1791; identical logic in
     src/unnamed/part_001 lines 1518-1644) -/

/-- A 3D vector with exact rational components (THREE.Vector3). -/
structure Vec3 where
  x : ℚ
  y : ℚ
  z : ℚ
deriving DecidableEq, Repr

instance : Add Vec3 := ⟨fun a b => ⟨a.x + b.x, a.y + b.y, a.z + b.z⟩⟩

/-- THREE.Vector3.multiplyScalar. -/
def Vec3.scale (v : Vec3) (c : ℚ) : Vec3 := ⟨v.x * c, v.y * c, v.z * c⟩

/-- The per-node state read and written by updateNodes
(node creation: src/index.ts lines 690-714). -/
structure NodeData where
  position : Vec3
  velocity : Vec3
  angularVelocity : Vec3
  mass : ℚ
  restitution : ℚ
  friction : ℚ
  activity : ℚ
  lastCollisionTime : ℚ
deriving DecidableEq, Repr

/-- A ripple (src/index.ts createRipple lines 848-915, return value at
lines 906-914): age starts at 0, maxAge and maxRadius are captured from
the live parameters at spawn time. -/
structure RippleData where
  position : Vec3
  normal : Vec3
  age : ℚ
  maxAge : ℚ
  maxRadius : ℚ
  wallType : String
deriving DecidableEq, Repr

/-- createRipple (src/index.ts lines 848-915): the visual mesh set-up is
rendering-layer work; the physical record is built at lines 849 and
906-914 with maxRadius = 4.0 × rippleIntensity × rippleSize and
maxAge = rippleDuration. -/
def createRipple (rippleIntensity rippleSize rippleDuration : ℚ)
    (position normal : Vec3) (wallType : String) : RippleData where
  position := position
  normal := normal
  age := 0
  maxAge := rippleDuration
  maxRadius := 4.0 * rippleIntensity * rippleSize
  wallType := wallType

/-- The controller parameters read by updateNodes and by ripple spawning. -/
structure SimParams where
  nodeSpeed : ℚ
  activitySpeed : ℚ
  wallRestitution : ℚ
  wallFriction : ℚ
  rippleIntensity : ℚ
  rippleSize : ℚ
  rippleDuration : ℚ
  showRipples : Bool
deriving DecidableEq, Repr

/-- Box half-extents from the camera frustum (src/index.ts lines
1632-1641): depth is fixed at 20, height = 2·tan(fov/2)·depth,
width = height·aspect; boundaries are width·0.5, height·0.5, depth·0.4.
`tanHalfFov` stands for Math.tan(fov·π/360). -/
def boxBoundaries (tanHalfFov aspect : ℚ) : Vec3 :=
  let depth : ℚ := 20
  let height := 2 * tanHalfFov * depth
  let width := height * aspect
  ⟨width * 0.5, height * 0.5, depth * 0.4⟩

/-- The mutable values threaded through the three per-axis collision
blocks of updateNodes: position, velocity, angular velocity, the node's
last-collision stamp, the ripples pushed so far and the next index into
the Math.random stream. -/
structure AxisSt where
  pos : Vec3
  vel : Vec3
  av : Vec3
  lct : ℚ
  rips : List RippleData
  k : ℕ
deriving DecidableEq, Repr

/-- X-axis collision block (src/index.ts lines 1647-1695): clamp, then —
only for outward velocity with the 0.1 s debounce elapsed — reflect
velocity.x by restitution·wallRestitution, scale velocity.y and
velocity.z by wallFriction, add a random angular impulse, stamp the
collision time and push a right/left-wall ripple when ripples are on. -/
def collideX (P : SimParams) (time : ℚ) (rand : ℕ → ℚ)
    (restitution bX : ℚ) (s : AxisSt) : AxisSt :=
  if s.pos.x > bX then
    let pos1 := { s.pos with x := bX }
    if s.vel.x > 0 ∧ time - s.lct > 0.1 then
      let impactSpeed := |s.vel.x|
      let vel1 : Vec3 :=
        ⟨-s.vel.x * (restitution * P.wallRestitution),
         s.vel.y * P.wallFriction, s.vel.z * P.wallFriction⟩
      let av1 := s.av + Vec3.mk
        ((rand s.k - 0.5) * impactSpeed * 0.1)
        ((rand (s.k + 1) - 0.5) * impactSpeed * 0.1)
        ((rand (s.k + 2) - 0.5) * impactSpeed * 0.1)
      let rips1 := if P.showRipples then
          s.rips ++ [createRipple P.rippleIntensity P.rippleSize P.rippleDuration
            ⟨bX, pos1.y, pos1.z⟩ ⟨-1, 0, 0⟩ "right"]
        else s.rips
      ⟨pos1, vel1, av1, time, rips1, s.k + 3⟩
    else { s with pos := pos1 }
  else if s.pos.x < -bX then
    let pos1 := { s.pos with x := -bX }
    if s.vel.x < 0 ∧ time - s.lct > 0.1 then
      let impactSpeed := |s.vel.x|
      let vel1 : Vec3 :=
        ⟨-s.vel.x * (restitution * P.wallRestitution),
         s.vel.y * P.wallFriction, s.vel.z * P.wallFriction⟩
      let av1 := s.av + Vec3.mk
        ((rand s.k - 0.5) * impactSpeed * 0.1)
        ((rand (s.k + 1) - 0.5) * impactSpeed * 0.1)
        ((rand (s.k + 2) - 0.5) * impactSpeed * 0.1)
      let rips1 := if P.showRipples then
          s.rips ++ [createRipple P.rippleIntensity P.rippleSize P.rippleDuration
            ⟨-bX, pos1.y, pos1.z⟩ ⟨1, 0, 0⟩ "left"]
        else s.rips
      ⟨pos1, vel1, av1, time, rips1, s.k + 3⟩
    else { s with pos := pos1 }
  else s

/-- Y-axis collision block (src/index.ts lines 1697-1744): ceiling/floor;
friction applies to velocity.x and velocity.z. -/
def collideY (P : SimParams) (time : ℚ) (rand : ℕ → ℚ)
    (restitution bY : ℚ) (s : AxisSt) : AxisSt :=
  if s.pos.y > bY then
    let pos1 := { s.pos with y := bY }
    if s.vel.y > 0 ∧ time - s.lct > 0.1 then
      let impactSpeed := |s.vel.y|
      let vel1 : Vec3 :=
        ⟨s.vel.x * P.wallFriction,
         -s.vel.y * (restitution * P.wallRestitution), s.vel.z * P.wallFriction⟩
      let av1 := s.av + Vec3.mk
        ((rand s.k - 0.5) * impactSpeed * 0.1)
        ((rand (s.k + 1) - 0.5) * impactSpeed * 0.1)
        ((rand (s.k + 2) - 0.5) * impactSpeed * 0.1)
      let rips1 := if P.showRipples then
          s.rips ++ [createRipple P.rippleIntensity P.rippleSize P.rippleDuration
            ⟨pos1.x, bY, pos1.z⟩ ⟨0, -1, 0⟩ "ceiling"]
        else s.rips
      ⟨pos1, vel1, av1, time, rips1, s.k + 3⟩
    else { s with pos := pos1 }
  else if s.pos.y < -bY then
    let pos1 := { s.pos with y := -bY }
    if s.vel.y < 0 ∧ time - s.lct > 0.1 then
      let impactSpeed := |s.vel.y|
      let vel1 : Vec3 :=
        ⟨s.vel.x * P.wallFriction,
         -s.vel.y * (restitution * P.wallRestitution), s.vel.z * P.wallFriction⟩
      let av1 := s.av + Vec3.mk
        ((rand s.k - 0.5) * impactSpeed * 0.1)
        ((rand (s.k + 1) - 0.5) * impactSpeed * 0.1)
        ((rand (s.k + 2) - 0.5) * impactSpeed * 0.1)
      let rips1 := if P.showRipples then
          s.rips ++ [createRipple P.rippleIntensity P.rippleSize P.rippleDuration
            ⟨pos1.x, -bY, pos1.z⟩ ⟨0, 1, 0⟩ "floor"]
        else s.rips
      ⟨pos1, vel1, av1, time, rips1, s.k + 3⟩
    else { s with pos := pos1 }
  else s

/-- Z-axis collision block (src/index.ts lines 1746-1788): the +z
(camera-facing front) wall spawns no ripple; the back wall does. -/
def collideZ (P : SimParams) (time : ℚ) (rand : ℕ → ℚ)
    (restitution bZ : ℚ) (s : AxisSt) : AxisSt :=
  if s.pos.z > bZ then
    let pos1 := { s.pos with z := bZ }
    if s.vel.z > 0 ∧ time - s.lct > 0.1 then
      let impactSpeed := |s.vel.z|
      let vel1 : Vec3 :=
        ⟨s.vel.x * P.wallFriction, s.vel.y * P.wallFriction,
         -s.vel.z * (restitution * P.wallRestitution)⟩
      let av1 := s.av + Vec3.mk
        ((rand s.k - 0.5) * impactSpeed * 0.1)
        ((rand (s.k + 1) - 0.5) * impactSpeed * 0.1)
        ((rand (s.k + 2) - 0.5) * impactSpeed * 0.1)
      ⟨pos1, vel1, av1, time, s.rips, s.k + 3⟩
    else { s with pos := pos1 }
  else if s.pos.z < -bZ then
    let pos1 := { s.pos with z := -bZ }
    if s.vel.z < 0 ∧ time - s.lct > 0.1 then
      let impactSpeed := |s.vel.z|
      let vel1 : Vec3 :=
        ⟨s.vel.x * P.wallFriction, s.vel.y * P.wallFriction,
         -s.vel.z * (restitution * P.wallRestitution)⟩
      let av1 := s.av + Vec3.mk
        ((rand s.k - 0.5) * impactSpeed * 0.1)
        ((rand (s.k + 1) - 0.5) * impactSpeed * 0.1)
        ((rand (s.k + 2) - 0.5) * impactSpeed * 0.1)
      let rips1 := if P.showRipples then
          s.rips ++ [createRipple P.rippleIntensity P.rippleSize P.rippleDuration
            ⟨pos1.x, pos1.y, -bZ⟩ ⟨0, 0, 1⟩ "back"]
        else s.rips
      ⟨pos1, vel1, av1, time, rips1, s.k + 3⟩
    else { s with pos := pos1 }
  else s

/-- One node's motion/collision step inside updateNodes (src/index.ts
lines 1623-1791): activity oscillator, position integration by
velocity·nodeSpeed, the three per-axis collision blocks in x, y, z
order, then the unconditional 0.98 angular-velocity damping.  `sinM`
stands for Math.sin and `rand` for the Math.random stream; the returned
ℕ is the next unused random index. -/
def updateNodeStep (P : SimParams) (time : ℚ) (index : ℕ)
    (sinM : ℚ → ℚ) (rand : ℕ → ℚ) (k : ℕ) (bX bY bZ : ℚ)
    (node : NodeData) : NodeData × List RippleData × ℕ :=
  let activity := (sinM (time * P.activitySpeed + index) + 1) * 0.5
  let pos0 := node.position + node.velocity.scale P.nodeSpeed
  let s0 : AxisSt :=
    ⟨pos0, node.velocity, node.angularVelocity, node.lastCollisionTime, [], k⟩
  let s3 := collideZ P time rand node.restitution bZ
    (collideY P time rand node.restitution bY
      (collideX P time rand node.restitution bX s0))
  ({ node with
      position := s3.pos
      velocity := s3.vel
      angularVelocity := s3.av.scale 0.98
      lastCollisionTime := s3.lct
      activity := activity },
    s3.rips, s3.k)

/-- updateNodes (src/index.ts lines 1616-1791) restricted to its physics
effects: fold the per-node step over the node list in index order,
threading the random stream and collecting spawned ripples.  The box
half-extents are recomputed from the camera frustum for the step. -/
def updateNodes (P : SimParams) (time : ℚ) (sinM : ℚ → ℚ) (rand : ℕ → ℚ)
    (tanHalfFov aspect : ℚ) :
    List NodeData → ℕ → ℕ → List NodeData × List RippleData × ℕ
  | [], _, k => ([], [], k)
  | node :: rest, index, k =>
    let b := boxBoundaries tanHalfFov aspect
    let r1 := updateNodeStep P time index sinM rand k b.x b.y b.z node
    let r2 := updateNodes P time sinM rand tanHalfFov aspect rest (index + 1) r1.2.2
    (r1.1 :: r2.1, r1.2.1 ++ r2.2.1, r2.2.2)

/-! ## Ripple update (src/index.ts updateRipples lines 994-1024) -/

/-- Ripple opacity at a given age (src/index.ts lines 1012-1014):
progress = age/maxAge, opacity = 0.6·(1 − progress³). -/
def rippleOpacity (age maxAge : ℚ) : ℚ :=
  let progress := age / maxAge
  0.6 * (1 - progress * progress * progress)

/-- Ripple visual scale at a given age (src/index.ts line 1013). -/
def rippleScale (age maxAge maxRadius : ℚ) : ℚ :=
  maxRadius * (age / maxAge)

/-- One ripple's update inside updateRipples (src/index.ts lines
998-1023): age += 1/60; if age ≥ maxAge the ripple is removed and
disposed (`none`); otherwise it survives with the new age. -/
def rippleStep (r : RippleData) : Option RippleData :=
  let age1 := r.age + 1 / 60
  if age1 ≥ r.maxAge then none
  else some { r with age := age1 }

/-- updateRipples (src/index.ts lines 994-1024): every ripple is aged and
the expired ones are spliced out; relative order of survivors is kept. -/
def updateRipples (rs : List RippleData) : List RippleData :=
  rs.filterMap rippleStep

/-- Iterated ripple update: the fate of a single ripple across n frames. -/
def rippleIter : ℕ → RippleData → Option RippleData
  | 0, r => some r
  | n + 1, r =>
    match rippleStep r with
    | none => none
    | some r1 => rippleIter n r1

/-! ## Particle update (src/index.ts updateParticles lines 940-992,
    createParticle lines 917-938; identical logic in
    src/unnamed/part_001 lines 713-757) -/

/-- A particle travelling along a node pair (src/index.ts lines 929-937). -/
structure ParticleData where
  startNode : NodeData
  endNode : NodeData
  progress : ℚ
  speed : ℚ
  lifespan : ℚ
  age : ℚ
deriving DecidableEq, Repr

/-- createParticle (src/index.ts lines 917-938): progress and age start
at 0, lifespan is fixed at 3.0 s, speed = particleSpeed·(0.5 + r·0.5)
where r is the Math.random draw. -/
def createParticle (particleSpeed r : ℚ)
    (startNode endNode : NodeData) : ParticleData where
  startNode := startNode
  endNode := endNode
  progress := 0
  speed := particleSpeed * (0.5 + r * 0.5)
  lifespan := 3.0
  age := 0

/-- One particle's update inside updateParticles (src/index.ts lines
944-967): age += 1/60, progress += speed·1/60; retire when
progress ≥ 1 or age ≥ lifespan. -/
def particleAdvance (p : ParticleData) : Option ParticleData :=
  let age1 := p.age + 1 / 60
  let progress1 := p.progress + p.speed * (1 / 60)
  if progress1 ≥ 1 ∨ age1 ≥ p.lifespan then none
  else some { p with age := age1, progress := progress1 }

/-- The ordered i<j pairs visited by the double spawn loop
(src/index.ts lines 974-975). -/
def allPairs : List NodeData → List (NodeData × NodeData)
  | [] => []
  | a :: rest => rest.map (fun b => (a, b)) ++ allPairs rest

/-- The spawn loop body over the node pairs (src/index.ts lines 974-990):
per pair, activityFactor = max(0.3, avg of the endpoint activities),
one Bernoulli draw against spawnProbability·activityFactor, a second
draw choosing the travel direction and a third inside createParticle. -/
def spawnLoop (spawnProbability particleSpeed : ℚ) (rand : ℕ → ℚ) :
    List (NodeData × NodeData) → ℕ → List ParticleData
  | [], _ => []
  | (nodeA, nodeB) :: rest, k =>
    let activityFactor := max 0.3 ((nodeA.activity + nodeB.activity) * 0.5)
    let finalProbability := spawnProbability * activityFactor
    if rand k < finalProbability then
      let startNode := if rand (k + 1) < 0.5 then nodeA else nodeB
      let endNode := if rand (k + 1) < 0.5 then nodeB else nodeA
      createParticle particleSpeed (rand (k + 2)) startNode endNode ::
        spawnLoop spawnProbability particleSpeed rand rest (k + 3)
    else spawnLoop spawnProbability particleSpeed rand rest (k + 1)

/-- updateParticles (src/index.ts lines 940-992): age and advance the
existing pool, retiring finished particles, then — only when particles
are enabled and more than one node exists — run the pairwise spawn loop
with base probability (particleCount·(1/60)·2)/totalConnections where
totalConnections = n(n−1)/2. -/
def updateParticles (showParticles : Bool) (particleCount particleSpeed : ℚ)
    (nodes : List NodeData) (particles : List ParticleData)
    (rand : ℕ → ℚ) (k : ℕ) : List ParticleData :=
  let survivors := particles.filterMap particleAdvance
  if showParticles ∧ 1 < nodes.length then
    let totalConnections : ℚ :=
      ((nodes.length : ℚ) * ((nodes.length : ℚ) - 1)) / 2
    let spawnProbability := (particleCount * (1 / 60) * 2) / totalConnections
    survivors ++ spawnLoop spawnProbability particleSpeed rand (allPairs nodes) k
  else survivors

/-! ## Spatial sampler
    (src/index.ts generatePoissonDiskSampling lines 723-799) -/

/-- A uniformly random candidate inside the box (src/index.ts lines
730-734 and 742-746): each coordinate is (random − 0.5) times the full
extent; `k` indexes into the Math.random stream, three draws per point. -/
def randPoint (w h d : ℚ) (rand : ℕ → ℚ) (k : ℕ) : Vec3 :=
  ⟨(rand k - 0.5) * w, (rand (k + 1) - 0.5) * h, (rand (k + 2) - 0.5) * d⟩

/-- Squared Euclidean distance.  The source compares
candidate.distanceTo(p) < minDistance; both sides are nonnegative, so
the comparison of squares used here is equivalent over the reals. -/
def distSq (a b : Vec3) : ℚ :=
  (a.x - b.x) ^ 2 + (a.y - b.y) ^ 2 + (a.z - b.z) ^ 2

/-- The candidate-validity check of src/index.ts lines 748-755 on squared
distances: valid iff no already-placed point is strictly closer than the
minimum separation. -/
def farFromAll (pts : List Vec3) (c : Vec3) (minDistSq : ℚ) : Bool :=
  pts.all fun p => decide (minDistSq ≤ distSq c p)

/-- One round of up to `attempts` candidate draws (src/index.ts lines
741-761 and 766-785): accept the first candidate far enough from every
placed point, returning it with the next random index; `none` if all
attempts fail (each failed attempt consumed three draws). -/
def tryAttempts (w h d : ℚ) (rand : ℕ → ℚ) (pts : List Vec3)
    (minDistSq : ℚ) : ℕ → ℕ → Option (Vec3 × ℕ)
  | _, 0 => none
  | k, attempts + 1 =>
    let candidate := randPoint w h d rand k
    if farFromAll pts candidate minDistSq then some (candidate, k + 3)
    else tryAttempts w h d rand pts minDistSq (k + 3) attempts

/-- One iteration of the placement while-loop (src/index.ts lines
738-796): 30 attempts at the target separation, then 30 at the
separation relaxed ×0.9 (squared: ×0.81), then an unconditional random
point. -/
def placeNext (w h d minDistSq : ℚ) (rand : ℕ → ℚ) (pts : List Vec3)
    (k : ℕ) : Vec3 × ℕ :=
  match tryAttempts w h d rand pts minDistSq k 30 with
  | some r => r
  | none =>
    match tryAttempts w h d rand pts (minDistSq * (81 / 100)) (k + 90) 30 with
    | some r => r
    | none => (randPoint w h d rand (k + 180), k + 183)

/-- The while-loop of src/index.ts lines 738-796: each iteration places
exactly one point (by acceptance or fallback) until `remaining` more
points have been appended. -/
def genLoop (w h d minDistSq : ℚ) (rand : ℕ → ℚ) :
    List Vec3 → ℕ → ℕ → List Vec3
  | pts, _, 0 => pts
  | pts, k, remaining + 1 =>
    let r := placeNext w h d minDistSq rand pts k
    genLoop w h d minDistSq rand (pts ++ [r.1]) r.2 remaining

/-- generatePoissonDiskSampling (src/index.ts lines 723-799):
minDistance = min(w,h,d)/√numPoints·0.8, squared here to
min(w,h,d)²/numPoints·0.64; the first point is placed unconditionally
when numPoints > 0, the rest by the placement loop. -/
def generatePoissonDiskSampling (numPoints : ℕ) (w h d : ℚ)
    (rand : ℕ → ℚ) : List Vec3 :=
  let minDistSq := min (min w h) d ^ 2 / (numPoints : ℚ) * (16 / 25)
  if numPoints = 0 then []
  else genLoop w h d minDistSq rand [randPoint w h d rand 0] 3 (numPoints - 1)

/-! ## Sample fixtures used by witness theorems -/

/-- A concrete source preset. -/
def presetA : Preset where
  name := "A"
  nodeCount := 10
  nodeSpeed := 1
  activitySpeed := 1
  connectionOpacity := 1/2
  spaceSize := 15
  mouseInfluenceRadius := 5
  backgroundColor := ⟨0, 0, 0⟩
  nodeColor := ⟨1, 0, 0⟩
  connectionColor := ⟨0, 1, 0⟩
  showAllConnections := true
  particleCount := 5
  particleSpeed := 1
  particleSize := 1/5
  particleColor := ⟨0, 0, 1⟩
  showParticles := true
  rippleIntensity := 1
  rippleDuration := 2
  rippleSize := 1
  rippleColor := ⟨1, 1, 1⟩
  showRipples := true
  wallRestitution := 4/5
  wallFriction := 19/20

/-- A concrete target preset. -/
def presetB : Preset where
  name := "B"
  nodeCount := 20
  nodeSpeed := 3/2
  activitySpeed := 2
  connectionOpacity := 3/10
  spaceSize := 25
  mouseInfluenceRadius := 8
  backgroundColor := ⟨1/10, 1/10, 1/10⟩
  nodeColor := ⟨0, 1, 1⟩
  connectionColor := ⟨1, 0, 1⟩
  showAllConnections := false
  particleCount := 8
  particleSpeed := 2
  particleSize := 3/10
  particleColor := ⟨1, 1, 0⟩
  showParticles := false
  rippleIntensity := 3/2
  rippleDuration := 3
  rippleSize := 2
  rippleColor := ⟨1/2, 1/2, 1/2⟩
  showRipples := false
  wallRestitution := 1/2
  wallFriction := 9/10

/-- A concrete engine state with a transition from presetA to presetB in
flight (linear easing, 2 s duration, started at wall-clock 0 ms). -/
def stateT : EngineState where
  currentPresetName := "A"
  nodeCount := 10
  nodeSpeed := 1
  activitySpeed := 1
  connectionOpacity := 1/2
  spaceSize := 15
  mouseInfluenceRadius := 5
  particleCount := 5
  particleSpeed := 1
  particleSize := 1/5
  rippleIntensity := 1
  rippleDuration := 2
  rippleSize := 1
  wallRestitution := 4/5
  wallFriction := 19/20
  backgroundColor := ⟨0, 0, 0⟩
  nodeColor := ⟨1, 0, 0⟩
  connectionColor := ⟨0, 1, 0⟩
  particleColor := ⟨0, 0, 1⟩
  rippleColor := ⟨1, 1, 1⟩
  showAllConnections := true
  showParticles := true
  showRipples := true
  isTransitioning := true
  fromPreset := some presetA
  toPreset := some presetB
  transitionStartTime := 0
  transitionDuration := 2
  transitionEasing := "linear"

/-- A concrete node used by witness theorems. -/
def node0 : NodeData where
  position := ⟨0, 0, 0⟩
  velocity := ⟨5, 0, 0⟩
  angularVelocity := ⟨0, 0, 0⟩
  mass := 1
  restitution := 4/5
  friction := 19/20
  activity := 1/2
  lastCollisionTime := 0

instance : Inhabited NodeData := ⟨node0⟩

/-- Concrete simulation parameters used by witness theorems. -/
def simP : SimParams where
  nodeSpeed := 1
  activitySpeed := 1
  wallRestitution := 3/4
  wallFriction := 9/10
  rippleIntensity := 1
  rippleSize := 1
  rippleDuration := 2
  showRipples := true

/-- node0 moved next to the +x wall (it crosses x = 10 on the next step). -/
def node1 : NodeData := { node0 with position := ⟨19/2, 0, 0⟩ }

/-- A node that crosses the +x and +y boundaries in the same step. -/
def nodeC3 : NodeData :=
  { node0 with position := ⟨19/2, 19/2, 0⟩, velocity := ⟨1, 2, 0⟩ }

/-- A ripple whose captured duration 0.51 s is not a multiple of the
fixed 1/60 s step. -/
def rippleCE : RippleData :=
  createRipple 1 1 (51/100) ⟨0, 0, 0⟩ ⟨0, 0, 1⟩ "back"

/-! ## Shared helper lemmas -/

/-- Unfolding lemma for the Vec3 Add instance. -/
theorem Vec3.add_def (a b : Vec3) : a + b = ⟨a.x + b.x, a.y + b.y, a.z + b.z⟩ := rfl

/-- Every easing curve returned by getEasingFunction, the default branch
included, passes exactly through 1 at t = 1. -/
theorem getEasingFunction_apply_one (sin2 pow2 : ℚ → ℚ) (piQ : ℚ)
    (type : String) : getEasingFunction sin2 pow2 piQ type 1 = 1 := by
  unfold getEasingFunction
  split_ifs <;> norm_num

/-- Every easing curve returned by getEasingFunction, the default branch
included, passes exactly through 0 at t = 0. -/
theorem getEasingFunction_apply_zero (sin2 pow2 : ℚ → ℚ) (piQ : ℚ)
    (type : String) : getEasingFunction sin2 pow2 piQ type 0 = 0 := by
  unfold getEasingFunction
  split_ifs <;> norm_num

/-! ## Claim theorems -/

/-- C6: every supported easing function — linear, ease-in, ease-out,
ease-in-out, bounce and elastic — satisfies f(0) = 0 and f(1) = 1
exactly, for any realization of the math-library sin, pow and π. -/
theorem easing_endpoint_identities (sin2 pow2 : ℚ → ℚ) (piQ : ℚ) :
    (getEasingFunction sin2 pow2 piQ "linear" 0 = 0 ∧
      getEasingFunction sin2 pow2 piQ "linear" 1 = 1) ∧
    (getEasingFunction sin2 pow2 piQ "ease-in" 0 = 0 ∧
      getEasingFunction sin2 pow2 piQ "ease-in" 1 = 1) ∧
    (getEasingFunction sin2 pow2 piQ "ease-out" 0 = 0 ∧
      getEasingFunction sin2 pow2 piQ "ease-out" 1 = 1) ∧
    (getEasingFunction sin2 pow2 piQ "ease-in-out" 0 = 0 ∧
      getEasingFunction sin2 pow2 piQ "ease-in-out" 1 = 1) ∧
    (getEasingFunction sin2 pow2 piQ "bounce" 0 = 0 ∧
      getEasingFunction sin2 pow2 piQ "bounce" 1 = 1) ∧
    (getEasingFunction sin2 pow2 piQ "elastic" 0 = 0 ∧
      getEasingFunction sin2 pow2 piQ "elastic" 1 = 1) :=
  ⟨⟨getEasingFunction_apply_zero sin2 pow2 piQ "linear",
      getEasingFunction_apply_one sin2 pow2 piQ "linear"⟩,
    ⟨getEasingFunction_apply_zero sin2 pow2 piQ "ease-in",
      getEasingFunction_apply_one sin2 pow2 piQ "ease-in"⟩,
    ⟨getEasingFunction_apply_zero sin2 pow2 piQ "ease-out",
      getEasingFunction_apply_one sin2 pow2 piQ "ease-out"⟩,
    ⟨getEasingFunction_apply_zero sin2 pow2 piQ "ease-in-out",
      getEasingFunction_apply_one sin2 pow2 piQ "ease-in-out"⟩,
    ⟨getEasingFunction_apply_zero sin2 pow2 piQ "bounce",
      getEasingFunction_apply_one sin2 pow2 piQ "bounce"⟩,
    ⟨getEasingFunction_apply_zero sin2 pow2 piQ "elastic",
      getEasingFunction_apply_one sin2 pow2 piQ "elastic"⟩⟩

/-- C5: while a transition is in flight, a request to start another
transition leaves the engine state — the stored from/to presets, start
time, duration and easing included — completely unchanged. -/
theorem startTransition_inflight_noop (now : ℚ) (p : Preset)
    (s : EngineState) (h : s.isTransitioning = true) :
    startTransition now p s = s := by
  simp [startTransition, h]

/-- Witness for C5: a second transition requested at 500 ms into the
concrete in-flight state stateT changes nothing. -/
theorem startTransition_inflight_noop_witness :
    stateT.isTransitioning = true ∧ startTransition 500 presetB stateT = stateT :=
  ⟨rfl, startTransition_inflight_noop 500 presetB stateT rfl⟩

/-- C9: with fewer than two nodes the spawn phase of updateParticles is
skipped entirely — the result is exactly the aged surviving pool, so no
particle is ever spawned and the pairwise loop with its division by
totalConnections is never entered. -/
theorem updateParticles_degenerate_safe (showParticles : Bool)
    (particleCount particleSpeed : ℚ) (nodes : List NodeData)
    (particles : List ParticleData) (rand : ℕ → ℚ) (k : ℕ)
    (h : nodes.length < 2) :
    updateParticles showParticles particleCount particleSpeed nodes particles
      rand k = particles.filterMap particleAdvance := by
  unfold updateParticles
  rw [if_neg]
  rintro ⟨-, h2⟩
  omega

/-- Witness for C9: with the single-node list [node0] and particles
enabled, the update spawns nothing. -/
theorem updateParticles_degenerate_safe_witness :
    [node0].length < 2 ∧
      updateParticles true 5 1 [node0] [] (fun _ => 0) 0 =
        ([] : List ParticleData).filterMap particleAdvance :=
  ⟨by decide, updateParticles_degenerate_safe true 5 1 [node0] [] (fun _ => 0) 0
    (by decide)⟩

/-- Linear interpolation at t = 1 lands exactly on the end value. -/
theorem lerp_apply_one {K : Type} [Field K] (s e : K) : lerp s e 1 = e := by
  simp [lerp]

/-- Colour interpolation at t = 1 lands exactly on the end colour. -/
theorem lerpColor_apply_one (c1 c2 : ColorRGB) : lerpColor c1 c2 1 = c2 := by
  simp [lerpColor, lerp_apply_one]

/-- C4: when the transition's raw progress min(elapsed/duration, 1)
reaches 1, updateTransition sets every numeric, colour and boolean
parameter exactly to the target preset's values (the integer-valued
node and particle counts through an exact round), stores the target's
name as the current preset name, clears the stored from/to presets and
leaves the Transitioning state — for every easing name and every
realization of the math library. -/
theorem updateTransition_completes (sin2 pow2 : ℚ → ℚ) (piQ now : ℚ)
    (s : EngineState) (f tp : Preset)
    (hT : s.isTransitioning = true)
    (hf : s.fromPreset = some f) (ht : s.toPreset = some tp)
    (hdur : 0 < s.transitionDuration)
    (hel : s.transitionDuration ≤ (now - s.transitionStartTime) / 1000)
    (hnc : ((round tp.nodeCount : ℤ) : ℚ) = tp.nodeCount)
    (hpc : ((round tp.particleCount : ℤ) : ℚ) = tp.particleCount) :
    getCurrentPreset (updateTransition sin2 pow2 piQ now s) = tp ∧
    (updateTransition sin2 pow2 piQ now s).isTransitioning = false ∧
    (updateTransition sin2 pow2 piQ now s).fromPreset = none ∧
    (updateTransition sin2 pow2 piQ now s).toPreset = none := by
  have hprog : min ((now - s.transitionStartTime) / 1000 / s.transitionDuration) 1
      = 1 := min_eq_right ((one_le_div hdur).mpr hel)
  norm_num [updateTransition, hT, hf, ht, hprog, getEasingFunction_apply_one,
    lerp_apply_one, lerpColor_apply_one, getCurrentPreset, hnc, hpc]

/-! ### Projection lemmas for the per-axis collision blocks -/

/-- collideX clamps the x coordinate to the ±bX band. -/
theorem collideX_posx (P : SimParams) (time : ℚ) (rand : ℕ → ℚ)
    (rest bX : ℚ) (s : AxisSt) :
    (collideX P time rand rest bX s).pos.x =
      if s.pos.x > bX then bX else if s.pos.x < -bX then -bX else s.pos.x := by
  unfold collideX
  split_ifs <;> rfl

/-- collideX never moves the y coordinate. -/
theorem collideX_posy (P : SimParams) (time : ℚ) (rand : ℕ → ℚ)
    (rest bX : ℚ) (s : AxisSt) :
    (collideX P time rand rest bX s).pos.y = s.pos.y := by
  unfold collideX
  split_ifs <;> rfl

/-- collideX never moves the z coordinate. -/
theorem collideX_posz (P : SimParams) (time : ℚ) (rand : ℕ → ℚ)
    (rest bX : ℚ) (s : AxisSt) :
    (collideX P time rand rest bX s).pos.z = s.pos.z := by
  unfold collideX
  split_ifs <;> rfl

/-- collideY never moves the x coordinate. -/
theorem collideY_posx (P : SimParams) (time : ℚ) (rand : ℕ → ℚ)
    (rest bY : ℚ) (s : AxisSt) :
    (collideY P time rand rest bY s).pos.x = s.pos.x := by
  unfold collideY
  split_ifs <;> rfl

/-- collideY clamps the y coordinate to the ±bY band. -/
theorem collideY_posy (P : SimParams) (time : ℚ) (rand : ℕ → ℚ)
    (rest bY : ℚ) (s : AxisSt) :
    (collideY P time rand rest bY s).pos.y =
      if s.pos.y > bY then bY else if s.pos.y < -bY then -bY else s.pos.y := by
  unfold collideY
  split_ifs <;> rfl

/-- collideY never moves the z coordinate. -/
theorem collideY_posz (P : SimParams) (time : ℚ) (rand : ℕ → ℚ)
    (rest bY : ℚ) (s : AxisSt) :
    (collideY P time rand rest bY s).pos.z = s.pos.z := by
  unfold collideY
  split_ifs <;> rfl

/-- collideZ never moves the x coordinate. -/
theorem collideZ_posx (P : SimParams) (time : ℚ) (rand : ℕ → ℚ)
    (rest bZ : ℚ) (s : AxisSt) :
    (collideZ P time rand rest bZ s).pos.x = s.pos.x := by
  unfold collideZ
  split_ifs <;> rfl

/-- collideZ never moves the y coordinate. -/
theorem collideZ_posy (P : SimParams) (time : ℚ) (rand : ℕ → ℚ)
    (rest bZ : ℚ) (s : AxisSt) :
    (collideZ P time rand rest bZ s).pos.y = s.pos.y := by
  unfold collideZ
  split_ifs <;> rfl

/-- collideZ clamps the z coordinate to the ±bZ band. -/
theorem collideZ_posz (P : SimParams) (time : ℚ) (rand : ℕ → ℚ)
    (rest bZ : ℚ) (s : AxisSt) :
    (collideZ P time rand rest bZ s).pos.z =
      if s.pos.z > bZ then bZ else if s.pos.z < -bZ then -bZ else s.pos.z := by
  unfold collideZ
  split_ifs <;> rfl

/-- A value clamped into the band [−b, b] has absolute value at most b. -/
theorem clamp_abs_le (b v : ℚ) (hb : 0 ≤ b) :
    |if v > b then b else if v < -b then -b else v| ≤ b := by
  split_ifs with h1 h2
  · simp [abs_of_nonneg hb]
  · simp [abs_of_nonneg hb]
  · exact abs_le.mpr ⟨not_lt.mp h2, not_lt.mp h1⟩

/-- After one per-node step the position lies inside the box of the given
nonnegative half-extents, on every axis, whatever the debounce state. -/
theorem updateNodeStep_in_box (P : SimParams) (time : ℚ) (index : ℕ)
    (sinM : ℚ → ℚ) (rand : ℕ → ℚ) (k : ℕ) (bX bY bZ : ℚ) (node : NodeData)
    (hbX : 0 ≤ bX) (hbY : 0 ≤ bY) (hbZ : 0 ≤ bZ) :
    |(updateNodeStep P time index sinM rand k bX bY bZ node).1.position.x| ≤ bX ∧
    |(updateNodeStep P time index sinM rand k bX bY bZ node).1.position.y| ≤ bY ∧
    |(updateNodeStep P time index sinM rand k bX bY bZ node).1.position.z| ≤ bZ := by
  unfold updateNodeStep
  refine ⟨?_, ?_, ?_⟩
  · rw [collideZ_posx, collideY_posx, collideX_posx]
    exact clamp_abs_le bX _ hbX
  · rw [collideZ_posy, collideY_posy, collideX_posy]
    exact clamp_abs_le bY _ hbY
  · rw [collideZ_posz, collideY_posz, collideX_posz]
    exact clamp_abs_le bZ _ hbZ

/-- collideX is the identity when the x coordinate is inside the band. -/
theorem collideX_id (P : SimParams) (time : ℚ) (rand : ℕ → ℚ)
    (rest bX : ℚ) (s : AxisSt)
    (h1 : ¬s.pos.x > bX) (h2 : ¬s.pos.x < -bX) :
    collideX P time rand rest bX s = s := by
  unfold collideX
  rw [if_neg h1, if_neg h2]

/-- collideY is the identity when the y coordinate is inside the band. -/
theorem collideY_id (P : SimParams) (time : ℚ) (rand : ℕ → ℚ)
    (rest bY : ℚ) (s : AxisSt)
    (h1 : ¬s.pos.y > bY) (h2 : ¬s.pos.y < -bY) :
    collideY P time rand rest bY s = s := by
  unfold collideY
  rw [if_neg h1, if_neg h2]

/-- collideZ is the identity when the z coordinate is inside the band. -/
theorem collideZ_id (P : SimParams) (time : ℚ) (rand : ℕ → ℚ)
    (rest bZ : ℚ) (s : AxisSt)
    (h1 : ¬s.pos.z > bZ) (h2 : ¬s.pos.z < -bZ) :
    collideZ P time rand rest bZ s = s := by
  unfold collideZ
  rw [if_neg h1, if_neg h2]

/-- collideX on a +x crossing with outward velocity and elapsed debounce:
full collision response with a right-wall ripple. -/
theorem collideX_fire_pos (P : SimParams) (time : ℚ) (rand : ℕ → ℚ)
    (rest bX : ℚ) (s : AxisSt)
    (h1 : s.pos.x > bX) (h : s.vel.x > 0 ∧ time - s.lct > 0.1) :
    collideX P time rand rest bX s =
      ⟨⟨bX, s.pos.y, s.pos.z⟩,
       ⟨-s.vel.x * (rest * P.wallRestitution),
        s.vel.y * P.wallFriction, s.vel.z * P.wallFriction⟩,
       s.av + ⟨(rand s.k - 0.5) * |s.vel.x| * 0.1,
         (rand (s.k + 1) - 0.5) * |s.vel.x| * 0.1,
         (rand (s.k + 2) - 0.5) * |s.vel.x| * 0.1⟩,
       time,
       if P.showRipples then
         s.rips ++ [createRipple P.rippleIntensity P.rippleSize P.rippleDuration
           ⟨bX, s.pos.y, s.pos.z⟩ ⟨-1, 0, 0⟩ "right"]
       else s.rips,
       s.k + 3⟩ := by
  unfold collideX
  rw [if_pos h1, if_pos h]

/-- collideX on a −x crossing with outward velocity and elapsed debounce:
full collision response with a left-wall ripple. -/
theorem collideX_fire_neg (P : SimParams) (time : ℚ) (rand : ℕ → ℚ)
    (rest bX : ℚ) (s : AxisSt)
    (h1 : ¬s.pos.x > bX) (h2 : s.pos.x < -bX)
    (h : s.vel.x < 0 ∧ time - s.lct > 0.1) :
    collideX P time rand rest bX s =
      ⟨⟨-bX, s.pos.y, s.pos.z⟩,
       ⟨-s.vel.x * (rest * P.wallRestitution),
        s.vel.y * P.wallFriction, s.vel.z * P.wallFriction⟩,
       s.av + ⟨(rand s.k - 0.5) * |s.vel.x| * 0.1,
         (rand (s.k + 1) - 0.5) * |s.vel.x| * 0.1,
         (rand (s.k + 2) - 0.5) * |s.vel.x| * 0.1⟩,
       time,
       if P.showRipples then
         s.rips ++ [createRipple P.rippleIntensity P.rippleSize P.rippleDuration
           ⟨-bX, s.pos.y, s.pos.z⟩ ⟨1, 0, 0⟩ "left"]
       else s.rips,
       s.k + 3⟩ := by
  unfold collideX
  rw [if_neg h1, if_pos h2, if_pos h]

/-- collideY on a +y crossing with outward velocity and elapsed debounce:
full collision response with a ceiling ripple. -/
theorem collideY_fire_pos (P : SimParams) (time : ℚ) (rand : ℕ → ℚ)
    (rest bY : ℚ) (s : AxisSt)
    (h1 : s.pos.y > bY) (h : s.vel.y > 0 ∧ time - s.lct > 0.1) :
    collideY P time rand rest bY s =
      ⟨⟨s.pos.x, bY, s.pos.z⟩,
       ⟨s.vel.x * P.wallFriction,
        -s.vel.y * (rest * P.wallRestitution), s.vel.z * P.wallFriction⟩,
       s.av + ⟨(rand s.k - 0.5) * |s.vel.y| * 0.1,
         (rand (s.k + 1) - 0.5) * |s.vel.y| * 0.1,
         (rand (s.k + 2) - 0.5) * |s.vel.y| * 0.1⟩,
       time,
       if P.showRipples then
         s.rips ++ [createRipple P.rippleIntensity P.rippleSize P.rippleDuration
           ⟨s.pos.x, bY, s.pos.z⟩ ⟨0, -1, 0⟩ "ceiling"]
       else s.rips,
       s.k + 3⟩ := by
  unfold collideY
  rw [if_pos h1, if_pos h]

/-- collideY on a −y crossing with outward velocity and elapsed debounce:
full collision response with a floor ripple. -/
theorem collideY_fire_neg (P : SimParams) (time : ℚ) (rand : ℕ → ℚ)
    (rest bY : ℚ) (s : AxisSt)
    (h1 : ¬s.pos.y > bY) (h2 : s.pos.y < -bY)
    (h : s.vel.y < 0 ∧ time - s.lct > 0.1) :
    collideY P time rand rest bY s =
      ⟨⟨s.pos.x, -bY, s.pos.z⟩,
       ⟨s.vel.x * P.wallFriction,
        -s.vel.y * (rest * P.wallRestitution), s.vel.z * P.wallFriction⟩,
       s.av + ⟨(rand s.k - 0.5) * |s.vel.y| * 0.1,
         (rand (s.k + 1) - 0.5) * |s.vel.y| * 0.1,
         (rand (s.k + 2) - 0.5) * |s.vel.y| * 0.1⟩,
       time,
       if P.showRipples then
         s.rips ++ [createRipple P.rippleIntensity P.rippleSize P.rippleDuration
           ⟨s.pos.x, -bY, s.pos.z⟩ ⟨0, 1, 0⟩ "floor"]
       else s.rips,
       s.k + 3⟩ := by
  unfold collideY
  rw [if_neg h1, if_pos h2, if_pos h]

/-- collideZ on a +z crossing with outward velocity and elapsed debounce:
full collision response; the front wall spawns no ripple. -/
theorem collideZ_fire_pos (P : SimParams) (time : ℚ) (rand : ℕ → ℚ)
    (rest bZ : ℚ) (s : AxisSt)
    (h1 : s.pos.z > bZ) (h : s.vel.z > 0 ∧ time - s.lct > 0.1) :
    collideZ P time rand rest bZ s =
      ⟨⟨s.pos.x, s.pos.y, bZ⟩,
       ⟨s.vel.x * P.wallFriction, s.vel.y * P.wallFriction,
        -s.vel.z * (rest * P.wallRestitution)⟩,
       s.av + ⟨(rand s.k - 0.5) * |s.vel.z| * 0.1,
         (rand (s.k + 1) - 0.5) * |s.vel.z| * 0.1,
         (rand (s.k + 2) - 0.5) * |s.vel.z| * 0.1⟩,
       time, s.rips, s.k + 3⟩ := by
  unfold collideZ
  rw [if_pos h1, if_pos h]

/-- collideZ on a −z crossing with outward velocity and elapsed debounce:
full collision response with a back-wall ripple. -/
theorem collideZ_fire_neg (P : SimParams) (time : ℚ) (rand : ℕ → ℚ)
    (rest bZ : ℚ) (s : AxisSt)
    (h1 : ¬s.pos.z > bZ) (h2 : s.pos.z < -bZ)
    (h : s.vel.z < 0 ∧ time - s.lct > 0.1) :
    collideZ P time rand rest bZ s =
      ⟨⟨s.pos.x, s.pos.y, -bZ⟩,
       ⟨s.vel.x * P.wallFriction, s.vel.y * P.wallFriction,
        -s.vel.z * (rest * P.wallRestitution)⟩,
       s.av + ⟨(rand s.k - 0.5) * |s.vel.z| * 0.1,
         (rand (s.k + 1) - 0.5) * |s.vel.z| * 0.1,
         (rand (s.k + 2) - 0.5) * |s.vel.z| * 0.1⟩,
       time,
       if P.showRipples then
         s.rips ++ [createRipple P.rippleIntensity P.rippleSize P.rippleDuration
           ⟨s.pos.x, s.pos.y, -bZ⟩ ⟨0, 0, 1⟩ "back"]
       else s.rips,
       s.k + 3⟩ := by
  unfold collideZ
  rw [if_neg h1, if_pos h2, if_pos h]

/-- When less than 0.1 s has passed since the threaded last-collision
stamp, collideY only clamps the y coordinate: velocity, angular
velocity, collision stamp, ripples and the random index are untouched. -/
theorem collideY_debounced (P : SimParams) (time : ℚ) (rand : ℕ → ℚ)
    (rest bY : ℚ) (s : AxisSt) (h : ¬0.1 < time - s.lct) :
    collideY P time rand rest bY s =
      { s with pos := ⟨s.pos.x,
          if s.pos.y > bY then bY else if s.pos.y < -bY then -bY else s.pos.y,
          s.pos.z⟩ } := by
  have hngp : ¬(s.vel.y > 0 ∧ time - s.lct > 0.1) := fun hc => h hc.2
  have hngn : ¬(s.vel.y < 0 ∧ time - s.lct > 0.1) := fun hc => h hc.2
  unfold collideY
  by_cases h1 : s.pos.y > bY
  · rw [if_pos h1, if_neg hngp, if_pos h1]
  · rw [if_neg h1, if_neg h1]
    by_cases h3 : s.pos.y < -bY
    · rw [if_pos h3, if_neg hngn, if_pos h3]
    · rw [if_neg h3, if_neg h3]

/-- When less than 0.1 s has passed since the threaded last-collision
stamp, collideZ only clamps the z coordinate. -/
theorem collideZ_debounced (P : SimParams) (time : ℚ) (rand : ℕ → ℚ)
    (rest bZ : ℚ) (s : AxisSt) (h : ¬0.1 < time - s.lct) :
    collideZ P time rand rest bZ s =
      { s with pos := ⟨s.pos.x, s.pos.y,
          if s.pos.z > bZ then bZ else if s.pos.z < -bZ then -bZ else s.pos.z⟩ } := by
  have hngp : ¬(s.vel.z > 0 ∧ time - s.lct > 0.1) := fun hc => h hc.2
  have hngn : ¬(s.vel.z < 0 ∧ time - s.lct > 0.1) := fun hc => h hc.2
  unfold collideZ
  by_cases h1 : s.pos.z > bZ
  · rw [if_pos h1, if_neg hngp, if_pos h1]
  · rw [if_neg h1, if_neg h1]
    by_cases h3 : s.pos.z < -bZ
    · rw [if_pos h3, if_neg hngn, if_pos h3]
    · rw [if_neg h3, if_neg h3]

/-- C1: after every per-frame motion/collision step, every node's
position satisfies |x| ≤ boundaryX, |y| ≤ boundaryY and |z| ≤ boundaryZ,
where the boundaries are the box half-extents computed from the camera
frustum for that step; the clamp applies on every step regardless of the
collision debounce state. -/
theorem boundary_containment (P : SimParams) (time : ℚ) (sinM : ℚ → ℚ)
    (rand : ℕ → ℚ) (tanHalfFov aspect : ℚ)
    (hfov : 0 ≤ tanHalfFov) (hasp : 0 ≤ aspect)
    (nodes : List NodeData) (index k : ℕ) :
    ∀ n1 ∈ (updateNodes P time sinM rand tanHalfFov aspect nodes index k).1,
      |n1.position.x| ≤ (boxBoundaries tanHalfFov aspect).x ∧
      |n1.position.y| ≤ (boxBoundaries tanHalfFov aspect).y ∧
      |n1.position.z| ≤ (boxBoundaries tanHalfFov aspect).z := by
  have hbX : 0 ≤ (boxBoundaries tanHalfFov aspect).x := by
    have := mul_nonneg hfov hasp
    simp only [boxBoundaries]
    nlinarith
  have hbY : 0 ≤ (boxBoundaries tanHalfFov aspect).y := by
    simp only [boxBoundaries]
    nlinarith
  have hbZ : 0 ≤ (boxBoundaries tanHalfFov aspect).z := by
    simp only [boxBoundaries]
    norm_num
  induction nodes generalizing index k with
  | nil =>
    intro n1 h
    simp [updateNodes] at h
  | cons nd rest ih =>
    intro n1 h
    simp only [updateNodes, List.mem_cons] at h
    rcases h with h | h
    · subst h
      exact updateNodeStep_in_box P time index sinM rand k _ _ _ nd hbX hbY hbZ
    · exact ih (index + 1) _ n1 h

/-- Witness for C1: one step on the concrete node node0 with unit
frustum parameters keeps the first output node inside the box. -/
theorem boundary_containment_witness :
    (0 : ℚ) ≤ 1 ∧
      (|((updateNodes simP 1 (fun q => q) (fun _ => 1/2) 1 1 [node0] 0 0).1.headI).position.x|
          ≤ (boxBoundaries 1 1).x ∧
        |((updateNodes simP 1 (fun q => q) (fun _ => 1/2) 1 1 [node0] 0 0).1.headI).position.y|
          ≤ (boxBoundaries 1 1).y ∧
        |((updateNodes simP 1 (fun q => q) (fun _ => 1/2) 1 1 [node0] 0 0).1.headI).position.z|
          ≤ (boxBoundaries 1 1).z) :=
  ⟨by norm_num,
    boundary_containment simP 1 (fun q => q) (fun _ => 1/2) 1 1 (by norm_num)
      (by norm_num) [node0] 0 0 _ (by simp [updateNodes])⟩

/-- C2: a node that crosses one wall with outward velocity, its last
collision more than 0.1 simulated seconds in the past, gets exactly the
specified response on that step: the crossed axis's velocity component
becomes −v·restitution·wallRestitution and each of the other two
components is multiplied by wallFriction.  One conjunct per wall; for a
y or z wall the earlier axes must not cross (the step handles axes in
x, y, z order). -/
theorem wall_collision_response (P : SimParams) (time : ℚ) (index : ℕ)
    (sinM : ℚ → ℚ) (rand : ℕ → ℚ) (k : ℕ) (bX bY bZ : ℚ) (node : NodeData)
    (hdb : 0.1 < time - node.lastCollisionTime) :
    ((node.position + node.velocity.scale P.nodeSpeed).x > bX → node.velocity.x > 0 →
      (updateNodeStep P time index sinM rand k bX bY bZ node).1.velocity.x
          = -node.velocity.x * (node.restitution * P.wallRestitution) ∧
        (updateNodeStep P time index sinM rand k bX bY bZ node).1.velocity.y
          = node.velocity.y * P.wallFriction ∧
        (updateNodeStep P time index sinM rand k bX bY bZ node).1.velocity.z
          = node.velocity.z * P.wallFriction) ∧
    (¬(node.position + node.velocity.scale P.nodeSpeed).x > bX →
      (node.position + node.velocity.scale P.nodeSpeed).x < -bX → node.velocity.x < 0 →
      (updateNodeStep P time index sinM rand k bX bY bZ node).1.velocity.x
          = -node.velocity.x * (node.restitution * P.wallRestitution) ∧
        (updateNodeStep P time index sinM rand k bX bY bZ node).1.velocity.y
          = node.velocity.y * P.wallFriction ∧
        (updateNodeStep P time index sinM rand k bX bY bZ node).1.velocity.z
          = node.velocity.z * P.wallFriction) ∧
    (¬(node.position + node.velocity.scale P.nodeSpeed).x > bX →
      ¬(node.position + node.velocity.scale P.nodeSpeed).x < -bX →
      (node.position + node.velocity.scale P.nodeSpeed).y > bY → node.velocity.y > 0 →
      (updateNodeStep P time index sinM rand k bX bY bZ node).1.velocity.x
          = node.velocity.x * P.wallFriction ∧
        (updateNodeStep P time index sinM rand k bX bY bZ node).1.velocity.y
          = -node.velocity.y * (node.restitution * P.wallRestitution) ∧
        (updateNodeStep P time index sinM rand k bX bY bZ node).1.velocity.z
          = node.velocity.z * P.wallFriction) ∧
    (¬(node.position + node.velocity.scale P.nodeSpeed).x > bX →
      ¬(node.position + node.velocity.scale P.nodeSpeed).x < -bX →
      ¬(node.position + node.velocity.scale P.nodeSpeed).y > bY →
      (node.position + node.velocity.scale P.nodeSpeed).y < -bY → node.velocity.y < 0 →
      (updateNodeStep P time index sinM rand k bX bY bZ node).1.velocity.x
          = node.velocity.x * P.wallFriction ∧
        (updateNodeStep P time index sinM rand k bX bY bZ node).1.velocity.y
          = -node.velocity.y * (node.restitution * P.wallRestitution) ∧
        (updateNodeStep P time index sinM rand k bX bY bZ node).1.velocity.z
          = node.velocity.z * P.wallFriction) ∧
    (¬(node.position + node.velocity.scale P.nodeSpeed).x > bX →
      ¬(node.position + node.velocity.scale P.nodeSpeed).x < -bX →
      ¬(node.position + node.velocity.scale P.nodeSpeed).y > bY →
      ¬(node.position + node.velocity.scale P.nodeSpeed).y < -bY →
      (node.position + node.velocity.scale P.nodeSpeed).z > bZ → node.velocity.z > 0 →
      (updateNodeStep P time index sinM rand k bX bY bZ node).1.velocity.x
          = node.velocity.x * P.wallFriction ∧
        (updateNodeStep P time index sinM rand k bX bY bZ node).1.velocity.y
          = node.velocity.y * P.wallFriction ∧
        (updateNodeStep P time index sinM rand k bX bY bZ node).1.velocity.z
          = -node.velocity.z * (node.restitution * P.wallRestitution)) ∧
    (¬(node.position + node.velocity.scale P.nodeSpeed).x > bX →
      ¬(node.position + node.velocity.scale P.nodeSpeed).x < -bX →
      ¬(node.position + node.velocity.scale P.nodeSpeed).y > bY →
      ¬(node.position + node.velocity.scale P.nodeSpeed).y < -bY →
      ¬(node.position + node.velocity.scale P.nodeSpeed).z > bZ →
      (node.position + node.velocity.scale P.nodeSpeed).z < -bZ → node.velocity.z < 0 →
      (updateNodeStep P time index sinM rand k bX bY bZ node).1.velocity.x
          = node.velocity.x * P.wallFriction ∧
        (updateNodeStep P time index sinM rand k bX bY bZ node).1.velocity.y
          = node.velocity.y * P.wallFriction ∧
        (updateNodeStep P time index sinM rand k bX bY bZ node).1.velocity.z
          = -node.velocity.z * (node.restitution * P.wallRestitution)) := by
  refine ⟨?_, ?_, ?_, ?_, ?_, ?_⟩
  · intro hc hv
    simp only [updateNodeStep]
    rw [collideX_fire_pos P time rand node.restitution bX
        ⟨node.position + node.velocity.scale P.nodeSpeed, node.velocity,
          node.angularVelocity, node.lastCollisionTime, [], k⟩ hc ⟨hv, hdb⟩]
    rw [collideY_debounced _ _ _ _ _ _ (by norm_num)]
    rw [collideZ_debounced _ _ _ _ _ _ (by norm_num)]
    exact ⟨rfl, rfl, rfl⟩
  · intro hc1 hc2 hv
    simp only [updateNodeStep]
    rw [collideX_fire_neg P time rand node.restitution bX
        ⟨node.position + node.velocity.scale P.nodeSpeed, node.velocity,
          node.angularVelocity, node.lastCollisionTime, [], k⟩ hc1 hc2 ⟨hv, hdb⟩]
    rw [collideY_debounced _ _ _ _ _ _ (by norm_num)]
    rw [collideZ_debounced _ _ _ _ _ _ (by norm_num)]
    exact ⟨rfl, rfl, rfl⟩
  · intro hx1 hx2 hc hv
    simp only [updateNodeStep]
    rw [collideX_id P time rand node.restitution bX
        ⟨node.position + node.velocity.scale P.nodeSpeed, node.velocity,
          node.angularVelocity, node.lastCollisionTime, [], k⟩ hx1 hx2]
    rw [collideY_fire_pos P time rand node.restitution bY
        ⟨node.position + node.velocity.scale P.nodeSpeed, node.velocity,
          node.angularVelocity, node.lastCollisionTime, [], k⟩ hc ⟨hv, hdb⟩]
    rw [collideZ_debounced _ _ _ _ _ _ (by norm_num)]
    exact ⟨rfl, rfl, rfl⟩
  · intro hx1 hx2 hc1 hc2 hv
    simp only [updateNodeStep]
    rw [collideX_id P time rand node.restitution bX
        ⟨node.position + node.velocity.scale P.nodeSpeed, node.velocity,
          node.angularVelocity, node.lastCollisionTime, [], k⟩ hx1 hx2]
    rw [collideY_fire_neg P time rand node.restitution bY
        ⟨node.position + node.velocity.scale P.nodeSpeed, node.velocity,
          node.angularVelocity, node.lastCollisionTime, [], k⟩ hc1 hc2 ⟨hv, hdb⟩]
    rw [collideZ_debounced _ _ _ _ _ _ (by norm_num)]
    exact ⟨rfl, rfl, rfl⟩
  · intro hx1 hx2 hy1 hy2 hc hv
    simp only [updateNodeStep]
    rw [collideX_id P time rand node.restitution bX
        ⟨node.position + node.velocity.scale P.nodeSpeed, node.velocity,
          node.angularVelocity, node.lastCollisionTime, [], k⟩ hx1 hx2]
    rw [collideY_id P time rand node.restitution bY
        ⟨node.position + node.velocity.scale P.nodeSpeed, node.velocity,
          node.angularVelocity, node.lastCollisionTime, [], k⟩ hy1 hy2]
    rw [collideZ_fire_pos P time rand node.restitution bZ
        ⟨node.position + node.velocity.scale P.nodeSpeed, node.velocity,
          node.angularVelocity, node.lastCollisionTime, [], k⟩ hc ⟨hv, hdb⟩]
    exact ⟨rfl, rfl, rfl⟩
  · intro hx1 hx2 hy1 hy2 hc1 hc2 hv
    simp only [updateNodeStep]
    rw [collideX_id P time rand node.restitution bX
        ⟨node.position + node.velocity.scale P.nodeSpeed, node.velocity,
          node.angularVelocity, node.lastCollisionTime, [], k⟩ hx1 hx2]
    rw [collideY_id P time rand node.restitution bY
        ⟨node.position + node.velocity.scale P.nodeSpeed, node.velocity,
          node.angularVelocity, node.lastCollisionTime, [], k⟩ hy1 hy2]
    rw [collideZ_fire_neg P time rand node.restitution bZ
        ⟨node.position + node.velocity.scale P.nodeSpeed, node.velocity,
          node.angularVelocity, node.lastCollisionTime, [], k⟩ hc1 hc2 ⟨hv, hdb⟩]
    exact ⟨rfl, rfl, rfl⟩

/-- Witness for C2: node1 hits the +x wall at x = 10 with vx = 5,
restitution 0.8 and wallRestitution 0.75, leaving vx = −3 and the
tangential components scaled by wallFriction. -/
theorem wall_collision_response_witness :
    (0.1 : ℚ) < 1 - node1.lastCollisionTime ∧
    ((updateNodeStep simP 1 0 (fun q => q) (fun _ => 1/2) 0 10 10 8 node1).1.velocity.x
        = -node1.velocity.x * (node1.restitution * simP.wallRestitution) ∧
      (updateNodeStep simP 1 0 (fun q => q) (fun _ => 1/2) 0 10 10 8 node1).1.velocity.y
        = node1.velocity.y * simP.wallFriction ∧
      (updateNodeStep simP 1 0 (fun q => q) (fun _ => 1/2) 0 10 10 8 node1).1.velocity.z
        = node1.velocity.z * simP.wallFriction) :=
  ⟨by norm_num [node1, node0],
    (wall_collision_response simP 1 0 (fun q => q) (fun _ => 1/2) 0 10 10 8 node1
      (by norm_num [node1, node0])).1
      (by norm_num [node1, node0, simP, Vec3.add_def, Vec3.scale])
      (by norm_num [node1, node0])⟩

/-- Counterexample for C3: nodeC3 crosses the +x and +y boundaries in the
same step, both with outward velocity and with its last collision 1 s in
the past, and ripples enabled — yet only the x-axis response fires: the
step emits one ripple (the right wall's), not two, and the y velocity
component is merely friction-scaled (9/5 > 0), not reflected. -/
theorem same_step_two_axis_collisions_counterexample :
    (0.1 : ℚ) < 1 - nodeC3.lastCollisionTime ∧
    (nodeC3.position + nodeC3.velocity.scale simP.nodeSpeed).x > 10 ∧
    nodeC3.velocity.x > 0 ∧
    (nodeC3.position + nodeC3.velocity.scale simP.nodeSpeed).y > 10 ∧
    nodeC3.velocity.y > 0 ∧
    simP.showRipples = true ∧
    (updateNodeStep simP 1 0 (fun q => q) (fun _ => 1/2) 0 10 10 8 nodeC3).2.1.map
        RippleData.wallType = ["right"] ∧
    (updateNodeStep simP 1 0 (fun q => q) (fun _ => 1/2) 0 10 10 8 nodeC3).1.velocity.y
        = 9/5 ∧
    ¬(updateNodeStep simP 1 0 (fun q => q) (fun _ => 1/2) 0 10 10 8 nodeC3).1.velocity.y < 0 ∧
    ¬(updateNodeStep simP 1 0 (fun q => q) (fun _ => 1/2) 0 10 10 8 nodeC3).2.1.length = 2 := by
  norm_num [Vec3.add_def, Vec3.scale, updateNodeStep, collideX, collideY, collideZ, createRipple, simP, node0, node1, nodeC3]

/-- C3 amended: when a node crosses the boundary on two different axes in
the same step — any of the pairs x–y, x–z or y–z, on either wall of each
axis — with outward velocity on both crossed axes and its last collision
more than 0.1 s in the past, only the earlier axis in the fixed x, y, z
processing order fires its collision response; stamping
lastCollisionTime there debounces the later axis within the same step,
so that axis is clamped but keeps its friction-scaled velocity and emits
no ripple: only the first wall's ripple appears.  One conjunct per
(first wall, second wall) pair; the y–z cases assume the x axis does not
cross, as the step would otherwise handle x first. -/
theorem same_step_second_axis_debounced (P : SimParams) (time : ℚ)
    (index : ℕ) (sinM : ℚ → ℚ) (rand : ℕ → ℚ) (k : ℕ) (bX bY bZ : ℚ)
    (node : NodeData)
    (hdb : 0.1 < time - node.lastCollisionTime) :
    ((node.position + node.velocity.scale P.nodeSpeed).x > bX →
      node.velocity.x > 0 →
      (node.position + node.velocity.scale P.nodeSpeed).y > bY →
      (updateNodeStep P time index sinM rand k bX bY bZ node).1.velocity.x
          = -node.velocity.x * (node.restitution * P.wallRestitution) ∧
        (updateNodeStep P time index sinM rand k bX bY bZ node).1.velocity.y
          = node.velocity.y * P.wallFriction ∧
        (updateNodeStep P time index sinM rand k bX bY bZ node).1.velocity.z
          = node.velocity.z * P.wallFriction ∧
        (updateNodeStep P time index sinM rand k bX bY bZ node).1.position.y = bY ∧
        (updateNodeStep P time index sinM rand k bX bY bZ node).1.lastCollisionTime = time ∧
        (updateNodeStep P time index sinM rand k bX bY bZ node).2.1.map RippleData.wallType
          = (if P.showRipples then ["right"] else [])) ∧
    ((node.position + node.velocity.scale P.nodeSpeed).x > bX →
      node.velocity.x > 0 →
      ¬(node.position + node.velocity.scale P.nodeSpeed).y > bY →
      (node.position + node.velocity.scale P.nodeSpeed).y < -bY →
      (updateNodeStep P time index sinM rand k bX bY bZ node).1.velocity.x
          = -node.velocity.x * (node.restitution * P.wallRestitution) ∧
        (updateNodeStep P time index sinM rand k bX bY bZ node).1.velocity.y
          = node.velocity.y * P.wallFriction ∧
        (updateNodeStep P time index sinM rand k bX bY bZ node).1.velocity.z
          = node.velocity.z * P.wallFriction ∧
        (updateNodeStep P time index sinM rand k bX bY bZ node).1.position.y = -bY ∧
        (updateNodeStep P time index sinM rand k bX bY bZ node).1.lastCollisionTime = time ∧
        (updateNodeStep P time index sinM rand k bX bY bZ node).2.1.map RippleData.wallType
          = (if P.showRipples then ["right"] else [])) ∧
    (¬(node.position + node.velocity.scale P.nodeSpeed).x > bX →
      (node.position + node.velocity.scale P.nodeSpeed).x < -bX →
      node.velocity.x < 0 →
      (node.position + node.velocity.scale P.nodeSpeed).y > bY →
      (updateNodeStep P time index sinM rand k bX bY bZ node).1.velocity.x
          = -node.velocity.x * (node.restitution * P.wallRestitution) ∧
        (updateNodeStep P time index sinM rand k bX bY bZ node).1.velocity.y
          = node.velocity.y * P.wallFriction ∧
        (updateNodeStep P time index sinM rand k bX bY bZ node).1.velocity.z
          = node.velocity.z * P.wallFriction ∧
        (updateNodeStep P time index sinM rand k bX bY bZ node).1.position.y = bY ∧
        (updateNodeStep P time index sinM rand k bX bY bZ node).1.lastCollisionTime = time ∧
        (updateNodeStep P time index sinM rand k bX bY bZ node).2.1.map RippleData.wallType
          = (if P.showRipples then ["left"] else [])) ∧
    (¬(node.position + node.velocity.scale P.nodeSpeed).x > bX →
      (node.position + node.velocity.scale P.nodeSpeed).x < -bX →
      node.velocity.x < 0 →
      ¬(node.position + node.velocity.scale P.nodeSpeed).y > bY →
      (node.position + node.velocity.scale P.nodeSpeed).y < -bY →
      (updateNodeStep P time index sinM rand k bX bY bZ node).1.velocity.x
          = -node.velocity.x * (node.restitution * P.wallRestitution) ∧
        (updateNodeStep P time index sinM rand k bX bY bZ node).1.velocity.y
          = node.velocity.y * P.wallFriction ∧
        (updateNodeStep P time index sinM rand k bX bY bZ node).1.velocity.z
          = node.velocity.z * P.wallFriction ∧
        (updateNodeStep P time index sinM rand k bX bY bZ node).1.position.y = -bY ∧
        (updateNodeStep P time index sinM rand k bX bY bZ node).1.lastCollisionTime = time ∧
        (updateNodeStep P time index sinM rand k bX bY bZ node).2.1.map RippleData.wallType
          = (if P.showRipples then ["left"] else [])) ∧
    ((node.position + node.velocity.scale P.nodeSpeed).x > bX →
      node.velocity.x > 0 →
      (node.position + node.velocity.scale P.nodeSpeed).z > bZ →
      (updateNodeStep P time index sinM rand k bX bY bZ node).1.velocity.x
          = -node.velocity.x * (node.restitution * P.wallRestitution) ∧
        (updateNodeStep P time index sinM rand k bX bY bZ node).1.velocity.y
          = node.velocity.y * P.wallFriction ∧
        (updateNodeStep P time index sinM rand k bX bY bZ node).1.velocity.z
          = node.velocity.z * P.wallFriction ∧
        (updateNodeStep P time index sinM rand k bX bY bZ node).1.position.z = bZ ∧
        (updateNodeStep P time index sinM rand k bX bY bZ node).1.lastCollisionTime = time ∧
        (updateNodeStep P time index sinM rand k bX bY bZ node).2.1.map RippleData.wallType
          = (if P.showRipples then ["right"] else [])) ∧
    ((node.position + node.velocity.scale P.nodeSpeed).x > bX →
      node.velocity.x > 0 →
      ¬(node.position + node.velocity.scale P.nodeSpeed).z > bZ →
      (node.position + node.velocity.scale P.nodeSpeed).z < -bZ →
      (updateNodeStep P time index sinM rand k bX bY bZ node).1.velocity.x
          = -node.velocity.x * (node.restitution * P.wallRestitution) ∧
        (updateNodeStep P time index sinM rand k bX bY bZ node).1.velocity.y
          = node.velocity.y * P.wallFriction ∧
        (updateNodeStep P time index sinM rand k bX bY bZ node).1.velocity.z
          = node.velocity.z * P.wallFriction ∧
        (updateNodeStep P time index sinM rand k bX bY bZ node).1.position.z = -bZ ∧
        (updateNodeStep P time index sinM rand k bX bY bZ node).1.lastCollisionTime = time ∧
        (updateNodeStep P time index sinM rand k bX bY bZ node).2.1.map RippleData.wallType
          = (if P.showRipples then ["right"] else [])) ∧
    (¬(node.position + node.velocity.scale P.nodeSpeed).x > bX →
      (node.position + node.velocity.scale P.nodeSpeed).x < -bX →
      node.velocity.x < 0 →
      (node.position + node.velocity.scale P.nodeSpeed).z > bZ →
      (updateNodeStep P time index sinM rand k bX bY bZ node).1.velocity.x
          = -node.velocity.x * (node.restitution * P.wallRestitution) ∧
        (updateNodeStep P time index sinM rand k bX bY bZ node).1.velocity.y
          = node.velocity.y * P.wallFriction ∧
        (updateNodeStep P time index sinM rand k bX bY bZ node).1.velocity.z
          = node.velocity.z * P.wallFriction ∧
        (updateNodeStep P time index sinM rand k bX bY bZ node).1.position.z = bZ ∧
        (updateNodeStep P time index sinM rand k bX bY bZ node).1.lastCollisionTime = time ∧
        (updateNodeStep P time index sinM rand k bX bY bZ node).2.1.map RippleData.wallType
          = (if P.showRipples then ["left"] else [])) ∧
    (¬(node.position + node.velocity.scale P.nodeSpeed).x > bX →
      (node.position + node.velocity.scale P.nodeSpeed).x < -bX →
      node.velocity.x < 0 →
      ¬(node.position + node.velocity.scale P.nodeSpeed).z > bZ →
      (node.position + node.velocity.scale P.nodeSpeed).z < -bZ →
      (updateNodeStep P time index sinM rand k bX bY bZ node).1.velocity.x
          = -node.velocity.x * (node.restitution * P.wallRestitution) ∧
        (updateNodeStep P time index sinM rand k bX bY bZ node).1.velocity.y
          = node.velocity.y * P.wallFriction ∧
        (updateNodeStep P time index sinM rand k bX bY bZ node).1.velocity.z
          = node.velocity.z * P.wallFriction ∧
        (updateNodeStep P time index sinM rand k bX bY bZ node).1.position.z = -bZ ∧
        (updateNodeStep P time index sinM rand k bX bY bZ node).1.lastCollisionTime = time ∧
        (updateNodeStep P time index sinM rand k bX bY bZ node).2.1.map RippleData.wallType
          = (if P.showRipples then ["left"] else [])) ∧
    (¬(node.position + node.velocity.scale P.nodeSpeed).x > bX →
      ¬(node.position + node.velocity.scale P.nodeSpeed).x < -bX →
      (node.position + node.velocity.scale P.nodeSpeed).y > bY →
      node.velocity.y > 0 →
      (node.position + node.velocity.scale P.nodeSpeed).z > bZ →
      (updateNodeStep P time index sinM rand k bX bY bZ node).1.velocity.x
          = node.velocity.x * P.wallFriction ∧
        (updateNodeStep P time index sinM rand k bX bY bZ node).1.velocity.y
          = -node.velocity.y * (node.restitution * P.wallRestitution) ∧
        (updateNodeStep P time index sinM rand k bX bY bZ node).1.velocity.z
          = node.velocity.z * P.wallFriction ∧
        (updateNodeStep P time index sinM rand k bX bY bZ node).1.position.z = bZ ∧
        (updateNodeStep P time index sinM rand k bX bY bZ node).1.lastCollisionTime = time ∧
        (updateNodeStep P time index sinM rand k bX bY bZ node).2.1.map RippleData.wallType
          = (if P.showRipples then ["ceiling"] else [])) ∧
    (¬(node.position + node.velocity.scale P.nodeSpeed).x > bX →
      ¬(node.position + node.velocity.scale P.nodeSpeed).x < -bX →
      (node.position + node.velocity.scale P.nodeSpeed).y > bY →
      node.velocity.y > 0 →
      ¬(node.position + node.velocity.scale P.nodeSpeed).z > bZ →
      (node.position + node.velocity.scale P.nodeSpeed).z < -bZ →
      (updateNodeStep P time index sinM rand k bX bY bZ node).1.velocity.x
          = node.velocity.x * P.wallFriction ∧
        (updateNodeStep P time index sinM rand k bX bY bZ node).1.velocity.y
          = -node.velocity.y * (node.restitution * P.wallRestitution) ∧
        (updateNodeStep P time index sinM rand k bX bY bZ node).1.velocity.z
          = node.velocity.z * P.wallFriction ∧
        (updateNodeStep P time index sinM rand k bX bY bZ node).1.position.z = -bZ ∧
        (updateNodeStep P time index sinM rand k bX bY bZ node).1.lastCollisionTime = time ∧
        (updateNodeStep P time index sinM rand k bX bY bZ node).2.1.map RippleData.wallType
          = (if P.showRipples then ["ceiling"] else [])) ∧
    (¬(node.position + node.velocity.scale P.nodeSpeed).x > bX →
      ¬(node.position + node.velocity.scale P.nodeSpeed).x < -bX →
      ¬(node.position + node.velocity.scale P.nodeSpeed).y > bY →
      (node.position + node.velocity.scale P.nodeSpeed).y < -bY →
      node.velocity.y < 0 →
      (node.position + node.velocity.scale P.nodeSpeed).z > bZ →
      (updateNodeStep P time index sinM rand k bX bY bZ node).1.velocity.x
          = node.velocity.x * P.wallFriction ∧
        (updateNodeStep P time index sinM rand k bX bY bZ node).1.velocity.y
          = -node.velocity.y * (node.restitution * P.wallRestitution) ∧
        (updateNodeStep P time index sinM rand k bX bY bZ node).1.velocity.z
          = node.velocity.z * P.wallFriction ∧
        (updateNodeStep P time index sinM rand k bX bY bZ node).1.position.z = bZ ∧
        (updateNodeStep P time index sinM rand k bX bY bZ node).1.lastCollisionTime = time ∧
        (updateNodeStep P time index sinM rand k bX bY bZ node).2.1.map RippleData.wallType
          = (if P.showRipples then ["floor"] else [])) ∧
    (¬(node.position + node.velocity.scale P.nodeSpeed).x > bX →
      ¬(node.position + node.velocity.scale P.nodeSpeed).x < -bX →
      ¬(node.position + node.velocity.scale P.nodeSpeed).y > bY →
      (node.position + node.velocity.scale P.nodeSpeed).y < -bY →
      node.velocity.y < 0 →
      ¬(node.position + node.velocity.scale P.nodeSpeed).z > bZ →
      (node.position + node.velocity.scale P.nodeSpeed).z < -bZ →
      (updateNodeStep P time index sinM rand k bX bY bZ node).1.velocity.x
          = node.velocity.x * P.wallFriction ∧
        (updateNodeStep P time index sinM rand k bX bY bZ node).1.velocity.y
          = -node.velocity.y * (node.restitution * P.wallRestitution) ∧
        (updateNodeStep P time index sinM rand k bX bY bZ node).1.velocity.z
          = node.velocity.z * P.wallFriction ∧
        (updateNodeStep P time index sinM rand k bX bY bZ node).1.position.z = -bZ ∧
        (updateNodeStep P time index sinM rand k bX bY bZ node).1.lastCollisionTime = time ∧
        (updateNodeStep P time index sinM rand k bX bY bZ node).2.1.map RippleData.wallType
          = (if P.showRipples then ["floor"] else [])) := by
  refine ⟨?_, ?_, ?_, ?_, ?_, ?_, ?_, ?_, ?_, ?_, ?_, ?_⟩
  · intro hcx hvx hcy
    simp only [updateNodeStep]
    rw [collideX_fire_pos P time rand node.restitution bX
        ⟨node.position + node.velocity.scale P.nodeSpeed, node.velocity,
          node.angularVelocity, node.lastCollisionTime, [], k⟩ hcx ⟨hvx, hdb⟩]
    rw [collideY_debounced _ _ _ _ _ _ (by norm_num)]
    rw [collideZ_debounced _ _ _ _ _ _ (by norm_num)]
    exact ⟨rfl, rfl, rfl, if_pos hcy, rfl, by
        by_cases hr : P.showRipples <;> simp [hr, createRipple]⟩
  · intro hcx hvx hcy1 hcy2
    simp only [updateNodeStep]
    rw [collideX_fire_pos P time rand node.restitution bX
        ⟨node.position + node.velocity.scale P.nodeSpeed, node.velocity,
          node.angularVelocity, node.lastCollisionTime, [], k⟩ hcx ⟨hvx, hdb⟩]
    rw [collideY_debounced _ _ _ _ _ _ (by norm_num)]
    rw [collideZ_debounced _ _ _ _ _ _ (by norm_num)]
    exact ⟨rfl, rfl, rfl, (if_neg hcy1).trans (if_pos hcy2), rfl, by
        by_cases hr : P.showRipples <;> simp [hr, createRipple]⟩
  · intro hcx1 hcx2 hvx hcy
    simp only [updateNodeStep]
    rw [collideX_fire_neg P time rand node.restitution bX
        ⟨node.position + node.velocity.scale P.nodeSpeed, node.velocity,
          node.angularVelocity, node.lastCollisionTime, [], k⟩ hcx1 hcx2 ⟨hvx, hdb⟩]
    rw [collideY_debounced _ _ _ _ _ _ (by norm_num)]
    rw [collideZ_debounced _ _ _ _ _ _ (by norm_num)]
    exact ⟨rfl, rfl, rfl, if_pos hcy, rfl, by
        by_cases hr : P.showRipples <;> simp [hr, createRipple]⟩
  · intro hcx1 hcx2 hvx hcy1 hcy2
    simp only [updateNodeStep]
    rw [collideX_fire_neg P time rand node.restitution bX
        ⟨node.position + node.velocity.scale P.nodeSpeed, node.velocity,
          node.angularVelocity, node.lastCollisionTime, [], k⟩ hcx1 hcx2 ⟨hvx, hdb⟩]
    rw [collideY_debounced _ _ _ _ _ _ (by norm_num)]
    rw [collideZ_debounced _ _ _ _ _ _ (by norm_num)]
    exact ⟨rfl, rfl, rfl, (if_neg hcy1).trans (if_pos hcy2), rfl, by
        by_cases hr : P.showRipples <;> simp [hr, createRipple]⟩
  · intro hcx hvx hcz
    simp only [updateNodeStep]
    rw [collideX_fire_pos P time rand node.restitution bX
        ⟨node.position + node.velocity.scale P.nodeSpeed, node.velocity,
          node.angularVelocity, node.lastCollisionTime, [], k⟩ hcx ⟨hvx, hdb⟩]
    rw [collideY_debounced _ _ _ _ _ _ (by norm_num)]
    rw [collideZ_debounced _ _ _ _ _ _ (by norm_num)]
    exact ⟨rfl, rfl, rfl, if_pos hcz, rfl, by
        by_cases hr : P.showRipples <;> simp [hr, createRipple]⟩
  · intro hcx hvx hcz1 hcz2
    simp only [updateNodeStep]
    rw [collideX_fire_pos P time rand node.restitution bX
        ⟨node.position + node.velocity.scale P.nodeSpeed, node.velocity,
          node.angularVelocity, node.lastCollisionTime, [], k⟩ hcx ⟨hvx, hdb⟩]
    rw [collideY_debounced _ _ _ _ _ _ (by norm_num)]
    rw [collideZ_debounced _ _ _ _ _ _ (by norm_num)]
    exact ⟨rfl, rfl, rfl, (if_neg hcz1).trans (if_pos hcz2), rfl, by
        by_cases hr : P.showRipples <;> simp [hr, createRipple]⟩
  · intro hcx1 hcx2 hvx hcz
    simp only [updateNodeStep]
    rw [collideX_fire_neg P time rand node.restitution bX
        ⟨node.position + node.velocity.scale P.nodeSpeed, node.velocity,
          node.angularVelocity, node.lastCollisionTime, [], k⟩ hcx1 hcx2 ⟨hvx, hdb⟩]
    rw [collideY_debounced _ _ _ _ _ _ (by norm_num)]
    rw [collideZ_debounced _ _ _ _ _ _ (by norm_num)]
    exact ⟨rfl, rfl, rfl, if_pos hcz, rfl, by
        by_cases hr : P.showRipples <;> simp [hr, createRipple]⟩
  · intro hcx1 hcx2 hvx hcz1 hcz2
    simp only [updateNodeStep]
    rw [collideX_fire_neg P time rand node.restitution bX
        ⟨node.position + node.velocity.scale P.nodeSpeed, node.velocity,
          node.angularVelocity, node.lastCollisionTime, [], k⟩ hcx1 hcx2 ⟨hvx, hdb⟩]
    rw [collideY_debounced _ _ _ _ _ _ (by norm_num)]
    rw [collideZ_debounced _ _ _ _ _ _ (by norm_num)]
    exact ⟨rfl, rfl, rfl, (if_neg hcz1).trans (if_pos hcz2), rfl, by
        by_cases hr : P.showRipples <;> simp [hr, createRipple]⟩
  · intro hx1 hx2 hcy hvy hcz
    simp only [updateNodeStep]
    rw [collideX_id P time rand node.restitution bX
        ⟨node.position + node.velocity.scale P.nodeSpeed, node.velocity,
          node.angularVelocity, node.lastCollisionTime, [], k⟩ hx1 hx2]
    rw [collideY_fire_pos P time rand node.restitution bY
        ⟨node.position + node.velocity.scale P.nodeSpeed, node.velocity,
          node.angularVelocity, node.lastCollisionTime, [], k⟩ hcy ⟨hvy, hdb⟩]
    rw [collideZ_debounced _ _ _ _ _ _ (by norm_num)]
    exact ⟨rfl, rfl, rfl, if_pos hcz, rfl, by
        by_cases hr : P.showRipples <;> simp [hr, createRipple]⟩
  · intro hx1 hx2 hcy hvy hcz1 hcz2
    simp only [updateNodeStep]
    rw [collideX_id P time rand node.restitution bX
        ⟨node.position + node.velocity.scale P.nodeSpeed, node.velocity,
          node.angularVelocity, node.lastCollisionTime, [], k⟩ hx1 hx2]
    rw [collideY_fire_pos P time rand node.restitution bY
        ⟨node.position + node.velocity.scale P.nodeSpeed, node.velocity,
          node.angularVelocity, node.lastCollisionTime, [], k⟩ hcy ⟨hvy, hdb⟩]
    rw [collideZ_debounced _ _ _ _ _ _ (by norm_num)]
    exact ⟨rfl, rfl, rfl, (if_neg hcz1).trans (if_pos hcz2), rfl, by
        by_cases hr : P.showRipples <;> simp [hr, createRipple]⟩
  · intro hx1 hx2 hcy1 hcy2 hvy hcz
    simp only [updateNodeStep]
    rw [collideX_id P time rand node.restitution bX
        ⟨node.position + node.velocity.scale P.nodeSpeed, node.velocity,
          node.angularVelocity, node.lastCollisionTime, [], k⟩ hx1 hx2]
    rw [collideY_fire_neg P time rand node.restitution bY
        ⟨node.position + node.velocity.scale P.nodeSpeed, node.velocity,
          node.angularVelocity, node.lastCollisionTime, [], k⟩ hcy1 hcy2 ⟨hvy, hdb⟩]
    rw [collideZ_debounced _ _ _ _ _ _ (by norm_num)]
    exact ⟨rfl, rfl, rfl, if_pos hcz, rfl, by
        by_cases hr : P.showRipples <;> simp [hr, createRipple]⟩
  · intro hx1 hx2 hcy1 hcy2 hvy hcz1 hcz2
    simp only [updateNodeStep]
    rw [collideX_id P time rand node.restitution bX
        ⟨node.position + node.velocity.scale P.nodeSpeed, node.velocity,
          node.angularVelocity, node.lastCollisionTime, [], k⟩ hx1 hx2]
    rw [collideY_fire_neg P time rand node.restitution bY
        ⟨node.position + node.velocity.scale P.nodeSpeed, node.velocity,
          node.angularVelocity, node.lastCollisionTime, [], k⟩ hcy1 hcy2 ⟨hvy, hdb⟩]
    rw [collideZ_debounced _ _ _ _ _ _ (by norm_num)]
    exact ⟨rfl, rfl, rfl, (if_neg hcz1).trans (if_pos hcz2), rfl, by
        by_cases hr : P.showRipples <;> simp [hr, createRipple]⟩

/-- Witness for C3's amended claim: the nodeC3 scenario instantiated. -/
theorem same_step_second_axis_debounced_witness :
    (0.1 : ℚ) < 1 - nodeC3.lastCollisionTime ∧
    ((updateNodeStep simP 1 0 (fun q => q) (fun _ => 1/2) 0 10 10 8 nodeC3).1.velocity.x
        = -nodeC3.velocity.x * (nodeC3.restitution * simP.wallRestitution) ∧
      (updateNodeStep simP 1 0 (fun q => q) (fun _ => 1/2) 0 10 10 8 nodeC3).1.velocity.y
        = nodeC3.velocity.y * simP.wallFriction ∧
      (updateNodeStep simP 1 0 (fun q => q) (fun _ => 1/2) 0 10 10 8 nodeC3).1.velocity.z
        = nodeC3.velocity.z * simP.wallFriction ∧
      (updateNodeStep simP 1 0 (fun q => q) (fun _ => 1/2) 0 10 10 8 nodeC3).1.position.y = 10 ∧
      (updateNodeStep simP 1 0 (fun q => q) (fun _ => 1/2) 0 10 10 8 nodeC3).1.lastCollisionTime = 1 ∧
      (updateNodeStep simP 1 0 (fun q => q) (fun _ => 1/2) 0 10 10 8 nodeC3).2.1.map
          RippleData.wallType = (if simP.showRipples then ["right"] else [])) :=
  ⟨by norm_num [nodeC3, node0],
    (same_step_second_axis_debounced simP 1 0 (fun q => q) (fun _ => 1/2) 0 10 10 8
      nodeC3 (by norm_num [nodeC3, node0])).1
      (by norm_num [nodeC3, node0, simP, Vec3.add_def, Vec3.scale])
      (by norm_num [nodeC3, node0])
      (by norm_num [nodeC3, node0, simP, Vec3.add_def, Vec3.scale])⟩

/-- Witness for C4: completing the concrete stateT transition at
2000 ms lands exactly on presetB and returns the engine to Idle. -/
theorem updateTransition_completes_witness :
    (0 : ℚ) < stateT.transitionDuration ∧
      (getCurrentPreset (updateTransition id id 0 2000 stateT) = presetB ∧
        (updateTransition id id 0 2000 stateT).isTransitioning = false ∧
        (updateTransition id id 0 2000 stateT).fromPreset = none ∧
        (updateTransition id id 0 2000 stateT).toPreset = none) :=
  ⟨by norm_num [stateT],
    updateTransition_completes id id 0 2000 stateT presetA presetB rfl rfl rfl
      (by norm_num [stateT]) (by norm_num [stateT])
      (by simp [presetB]) (by simp [presetB])⟩

/-- Counterexample for C7: a ripple whose captured duration 0.51 s is not
a multiple of the 1/60 s step survives step 30 (age 0.5) and is retired
at step 31, when its age 31/60 strictly exceeds maxAge — so retirement
does not happen at age == maxAge. -/
theorem ripple_exact_retirement_counterexample :
    (rippleIter 30 rippleCE).map RippleData.age = some (1/2) ∧
    rippleIter 31 rippleCE = none ∧
    (1/2 : ℚ) + 1/60 ≠ rippleCE.maxAge := by
  norm_num [rippleIter, rippleStep, rippleCE, createRipple]

/-- C7 amended: ripple opacity 0.6·(1 − (age/maxAge)³) is strictly
decreasing in age (for nonnegative ages and positive maxAge), and a
ripple is retired exactly at the first update that brings its age to
maxAge or beyond — never while age + 1/60 < maxAge, hitting maxAge
exactly only when maxAge is a multiple of the fixed 1/60 s step. -/
theorem ripple_lifecycle_amended (r : RippleData) (a1 a2 M : ℚ)
    (h0 : 0 ≤ a1) (h12 : a1 < a2) (hM : 0 < M) :
    rippleOpacity a2 M < rippleOpacity a1 M ∧
    (rippleStep r = none ↔ r.maxAge ≤ r.age + 1/60) := by
  constructor
  · simp only [rippleOpacity]
    have hq : a1 / M < a2 / M := by gcongr
    have hq0 : 0 ≤ a1 / M := div_nonneg h0 hM.le
    have hy : 0 < a2 / M := lt_of_le_of_lt hq0 hq
    have key : 0 < (a2 / M - a1 / M) *
        (a1 / M * (a1 / M) + a1 / M * (a2 / M) + a2 / M * (a2 / M)) :=
      mul_pos (sub_pos.mpr hq)
        (by nlinarith [sq_nonneg (a1 / M), mul_nonneg hq0 hy.le, mul_pos hy hy])
    nlinarith [key]
  · simp only [rippleStep]
    split_ifs with h
    · simp only [ge_iff_le] at h
      simpa using h
    · simp only [ge_iff_le] at h
      simpa using not_le.mp h

/-- Witness for C7's amended claim: the concrete rippleCE at ages 1/60
and 1/30 of its 0.51 s lifetime. -/
theorem ripple_lifecycle_amended_witness :
    ((0 : ℚ) ≤ 1/60 ∧ (1/60 : ℚ) < 1/30 ∧ (0 : ℚ) < 51/100) ∧
      (rippleOpacity (1/30) (51/100) < rippleOpacity (1/60) (51/100) ∧
        (rippleStep rippleCE = none ↔ rippleCE.maxAge ≤ rippleCE.age + 1/60)) :=
  ⟨⟨by norm_num, by norm_num, by norm_num⟩,
    ripple_lifecycle_amended rippleCE (1/60) (1/30) (51/100) (by norm_num)
      (by norm_num) (by norm_num)⟩

/-- One coordinate (random − 0.5)·extent lies within ±extent/2 when the
random draw is in [0, 1] and the extent is nonnegative. -/
theorem coord_bound (w r : ℚ) (hw : 0 ≤ w) (h0 : 0 ≤ r) (h1 : r ≤ 1) :
    |(r - 0.5) * w| ≤ w / 2 := by
  rw [abs_mul, abs_of_nonneg hw]
  have habs : |r - 0.5| ≤ 1/2 := abs_le.mpr ⟨by linarith, by linarith⟩
  nlinarith [abs_nonneg (r - 0.5)]

/-- Every random candidate point lies inside the sampling box. -/
theorem randPoint_in_box (w h d : ℚ) (rand : ℕ → ℚ) (k : ℕ)
    (hw : 0 ≤ w) (hh : 0 ≤ h) (hd : 0 ≤ d)
    (hr : ∀ i, 0 ≤ rand i ∧ rand i ≤ 1) :
    |(randPoint w h d rand k).x| ≤ w / 2 ∧
    |(randPoint w h d rand k).y| ≤ h / 2 ∧
    |(randPoint w h d rand k).z| ≤ d / 2 :=
  ⟨coord_bound w (rand k) hw (hr k).1 (hr k).2,
    coord_bound h (rand (k + 1)) hh (hr (k + 1)).1 (hr (k + 1)).2,
    coord_bound d (rand (k + 2)) hd (hr (k + 2)).1 (hr (k + 2)).2⟩

/-- Any point accepted by a round of attempts is one of the random
candidates. -/
theorem tryAttempts_shape (w h d : ℚ) (rand : ℕ → ℚ) (pts : List Vec3)
    (m : ℚ) : ∀ (attempts k : ℕ) (c : Vec3) (k2 : ℕ),
    tryAttempts w h d rand pts m k attempts = some (c, k2) →
    ∃ j, c = randPoint w h d rand j := by
  intro attempts
  induction attempts with
  | zero =>
    intro k c k2 hc
    simp [tryAttempts] at hc
  | succ n ih =>
    intro k c k2 hc
    simp only [tryAttempts] at hc
    split_ifs at hc with hf
    · simp only [Option.some.injEq, Prod.mk.injEq] at hc
      exact ⟨k, hc.1.symm⟩
    · exact ih (k + 3) c k2 hc

/-- The point placed by one loop iteration is one of the random
candidates (fallback included). -/
theorem placeNext_shape (w h d m : ℚ) (rand : ℕ → ℚ) (pts : List Vec3)
    (k : ℕ) :
    ∃ j, (placeNext w h d m rand pts k).1 = randPoint w h d rand j := by
  unfold placeNext
  rcases hA : tryAttempts w h d rand pts m k 30 with _ | ⟨c, k2⟩
  · rcases hB : tryAttempts w h d rand pts (m * (81/100)) (k + 90) 30
      with _ | ⟨c2, k3⟩
    · simp only [hA, hB]
      exact ⟨k + 180, rfl⟩
    · simp only [hA, hB]
      obtain ⟨j, hj⟩ := tryAttempts_shape w h d rand pts (m * (81/100)) 30
        (k + 90) c2 k3 hB
      exact ⟨j, hj⟩
  · simp only [hA]
    obtain ⟨j, hj⟩ := tryAttempts_shape w h d rand pts m 30 k c k2 hA
    exact ⟨j, hj⟩

/-- Each iteration of the placement loop appends exactly one point. -/
theorem genLoop_length (w h d m : ℚ) (rand : ℕ → ℚ) :
    ∀ (remaining : ℕ) (pts : List Vec3) (k : ℕ),
    (genLoop w h d m rand pts k remaining).length = pts.length + remaining := by
  intro remaining
  induction remaining with
  | zero =>
    intro pts k
    simp [genLoop]
  | succ n ih =>
    intro pts k
    simp only [genLoop]
    rw [ih]
    simp
    omega

/-- Every point produced by the placement loop is an initial point or a
random candidate. -/
theorem genLoop_mem (w h d m : ℚ) (rand : ℕ → ℚ) :
    ∀ (remaining : ℕ) (pts : List Vec3) (k : ℕ) (p : Vec3),
    p ∈ genLoop w h d m rand pts k remaining →
    p ∈ pts ∨ ∃ j, p = randPoint w h d rand j := by
  intro remaining
  induction remaining with
  | zero =>
    intro pts k p hp
    simp only [genLoop] at hp
    exact Or.inl hp
  | succ n ih =>
    intro pts k p hp
    simp only [genLoop] at hp
    rcases ih _ _ p hp with hmem | hj
    · rcases List.mem_append.mp hmem with h1 | h2
      · exact Or.inl h1
      · rw [List.mem_singleton] at h2
        obtain ⟨j, hj⟩ := placeNext_shape w h d m rand pts k
        exact Or.inr ⟨j, h2.trans hj⟩
    · exact Or.inr hj

/-- C8: for every requested count and positive extents, the sampler
terminates with exactly numPoints positions, each inside the axis-aligned
box centred at the origin with the given full extents — each loop
iteration places exactly one point because the 30 attempts at the target
separation and 30 at the 0.9-relaxed separation are followed by an
unconditional random placement. -/
theorem sampler_totality (numPoints : ℕ) (w h d : ℚ) (rand : ℕ → ℚ)
    (hw : 0 < w) (hh : 0 < h) (hd : 0 < d)
    (hr : ∀ i, 0 ≤ rand i ∧ rand i ≤ 1) :
    (generatePoissonDiskSampling numPoints w h d rand).length = numPoints ∧
    ∀ p ∈ generatePoissonDiskSampling numPoints w h d rand,
      |p.x| ≤ w / 2 ∧ |p.y| ≤ h / 2 ∧ |p.z| ≤ d / 2 := by
  unfold generatePoissonDiskSampling
  split_ifs with h0
  · subst h0
    simp
  · constructor
    · rw [genLoop_length]
      simp
      omega
    · intro p hp
      rcases genLoop_mem w h d _ rand _ _ _ p hp with hmem | ⟨j, rfl⟩
      · rw [List.mem_singleton] at hmem
        subst hmem
        exact randPoint_in_box w h d rand 0 hw.le hh.le hd.le hr
      · exact randPoint_in_box w h d rand j hw.le hh.le hd.le hr

/-- Witness for C8: two points sampled from a constant random stream in
a 2×2×2 box — both acceptance rounds fail (all candidates coincide) and
the unconditional fallback still delivers exactly two points. -/
theorem sampler_totality_witness :
    (0 : ℚ) < 2 ∧
      (generatePoissonDiskSampling 2 2 2 2 (fun _ => 1/2)).length = 2 :=
  ⟨by norm_num,
    (sampler_totality 2 2 2 2 (fun _ => 1/2) (by norm_num) (by norm_num)
      (by norm_num) (fun i => ⟨by norm_num, by norm_num⟩)).1⟩

/-- C10: the eased progress is applied unclamped and the elastic easing
(instantiated over ℝ with the genuine sin, base-2 exponential and π) is
strictly negative at t = 0.85, where it equals −2^(−3/2) ≈ −0.354; hence
during an elastic transition between numeric values a < b there is a
progress value strictly inside (0, 1) at which the interpolated
parameter lies strictly below a, outside [a, b]. -/
theorem elastic_transition_undershoots (a b : ℝ) (hab : a < b) :
    ∃ t : ℝ, 0 < t ∧ t < 1 ∧
      lerp a b (getEasingFunction Real.sin (fun x => (2:ℝ) ^ x) Real.pi
        "elastic" t) < a := by
  refine ⟨0.85, by norm_num, by norm_num, ?_⟩
  have hsin : Real.sin (((0.85 : ℝ) * 10 - 10.75) * (2 * Real.pi / 3)) = 1 := by
    have harg : ((0.85 : ℝ) * 10 - 10.75) * (2 * Real.pi / 3)
        = -(Real.pi + Real.pi / 2) := by
      ring
    rw [harg, Real.sin_neg, Real.sin_add, Real.sin_pi, Real.cos_pi,
      Real.sin_pi_div_two, Real.cos_pi_div_two]
    ring
  have hval : getEasingFunction Real.sin (fun x => (2:ℝ) ^ x) Real.pi
      "elastic" (0.85 : ℝ) = -(2:ℝ) ^ ((10 : ℝ) * 0.85 - 10) := by
    unfold getEasingFunction
    rw [if_neg (by decide : ¬("elastic" : String) = "linear"),
      if_neg (by decide : ¬("elastic" : String) = "ease-in"),
      if_neg (by decide : ¬("elastic" : String) = "ease-out"),
      if_neg (by decide : ¬("elastic" : String) = "ease-in-out"),
      if_neg (by decide : ¬("elastic" : String) = "bounce"),
      if_pos (rfl : ("elastic" : String) = "elastic")]
    simp only []
    rw [if_neg (by norm_num : ¬(0.85 : ℝ) = 0),
      if_neg (by norm_num : ¬(0.85 : ℝ) = 1), hsin]
    ring
  have hpow : (0:ℝ) < (2:ℝ) ^ ((10 : ℝ) * 0.85 - 10) :=
    Real.rpow_pos_of_pos (by norm_num) _
  have hneg : getEasingFunction Real.sin (fun x => (2:ℝ) ^ x) Real.pi
      "elastic" (0.85 : ℝ) < 0 := by
    rw [hval]
    linarith
  have hmul := mul_neg_of_pos_of_neg (sub_pos.mpr hab) hneg
  simp only [lerp]
  linarith

/-- Witness for C10: a transition from 0 to 1 dips below 0 at some
progress value strictly between 0 and 1. -/
theorem elastic_transition_undershoots_witness :
    (0 : ℝ) < 1 ∧
      ∃ t : ℝ, 0 < t ∧ t < 1 ∧
        lerp 0 1 (getEasingFunction Real.sin (fun x => (2:ℝ) ^ x) Real.pi
          "elastic" t) < 0 :=
  ⟨zero_lt_one, elastic_transition_undershoots 0 1 zero_lt_one⟩

end Neural
